import Mathlib

/-!
# Display-post validation (`adf_common.c`)

A shallow embedding of the validation code of the IMG ADF glue driver:

* `get_interface_attached_to_overlay` and `adf_img_validate_simple`, the
  single-buffer post policy;
* `validate`, the marshaling entry point behind the validate ioctl, as a
  function from the caller's memory, the kernel's answers and the driver's
  callbacks to a status and the list of resource events it performed.

Conventions.  Machine integers are `Nat`/`Int`, reduced modulo the width of
their C type wherever the code computes with them.  An array reached through
a pointer is an index function.  A pointer to an overlay engine or to an
interface is `none` (NULL) or the object it points to, which carries its
address; pointers are compared by address.  A function that returns through
a `goto` chain is written as nested conditionals in the order of the source.
-/

namespace AdfCommon

/-! ## Constants of headers outside this file -/

/-- Modelled from the spec: the invalid-argument status.  `EINVAL` comes from the
kernel's errno header, which is not under `src/`; 22 is its Linux value. -/
def EINVAL : Int := 22

/-- Modelled from the spec: the fault status (unreadable caller memory).
`EFAULT` comes from the kernel's errno header; 14 is its Linux value. -/
def EFAULT : Int := 14

/-- Modelled from the spec: the no-memory status.  `ENOMEM` comes from the
kernel's errno header; 12 is its Linux value. -/
def ENOMEM : Int := 12

/-- Modelled from the spec: the not-found status.  `ENOENT` comes from the
kernel's errno header; 2 is its Linux value. -/
def ENOENT : Int := 2

/-- Number of values of `size_t` and of `unsigned long` (64-bit kernel: the
validate request is asserted to be 32 bytes, which needs 8-byte pointers). -/
def SIZE_T_MOD : Nat := 2 ^ 64

/-- Number of values of `u32`. -/
def U32_MOD : Nat := 2 ^ 32

/-- Sizes, limits and enumerators that `adf_common.c` takes from `adf_common.h`,
`adf_ext.h` and `video/adf.h`.  None of these headers is under `src/`, so the
embedding is parametric in them. -/
structure Headers where
  /-- Value of `sizeof(struct adf_post_ext)` -/
  sizeof_adf_post_ext : Nat
  /-- Value of `sizeof(struct adf_buffer_config_ext)` -/
  sizeof_adf_buffer_config_ext : Nat
  /-- Value of `sizeof(struct adf_buffer_config)` -/
  sizeof_adf_buffer_config : Nat
  /-- Value of `sizeof(*data.interfaces)`, the size of an interface id -/
  sizeof_interface_id : Nat
  ADF_MAX_PLANES : Nat
  ADF_MAX_BUFFERS : Nat
  ADF_MAX_INTERFACES : Nat
  ADF_BUFFER_TRANSFORM_NONE_EXT : Nat
  ADF_BUFFER_TRANSFORM_FLIP_H_EXT : Nat
  ADF_BUFFER_TRANSFORM_FLIP_V_EXT : Nat
  ADF_BUFFER_TRANSFORM_ROT_90_EXT : Nat
  ADF_BUFFER_TRANSFORM_ROT_180_EXT : Nat
  ADF_BUFFER_TRANSFORM_ROT_270_EXT : Nat
  ADF_BUFFER_BLENDING_NONE_EXT : Nat
  ADF_BUFFER_BLENDING_PREMULT_EXT : Nat
  ADF_BUFFER_BLENDING_COVERAGE_EXT : Nat

/-- The values the headers have on a 64-bit kernel: packed `adf_post_ext`
(one `u32`), packed `adf_buffer_config_ext` (two clip rectangles, two `u32`,
four bytes), four planes, a page of buffer configs and of interface ids. -/
def linux_headers : Headers where
  sizeof_adf_post_ext := 4
  sizeof_adf_buffer_config_ext := 28
  sizeof_adf_buffer_config := 72
  sizeof_interface_id := 4
  ADF_MAX_PLANES := 4
  ADF_MAX_BUFFERS := 56
  ADF_MAX_INTERFACES := 1024
  ADF_BUFFER_TRANSFORM_NONE_EXT := 0
  ADF_BUFFER_TRANSFORM_FLIP_H_EXT := 1
  ADF_BUFFER_TRANSFORM_FLIP_V_EXT := 2
  ADF_BUFFER_TRANSFORM_ROT_90_EXT := 4
  ADF_BUFFER_TRANSFORM_ROT_180_EXT := 3
  ADF_BUFFER_TRANSFORM_ROT_270_EXT := 7
  ADF_BUFFER_BLENDING_NONE_EXT := 0
  ADF_BUFFER_BLENDING_PREMULT_EXT := 1
  ADF_BUFFER_BLENDING_COVERAGE_EXT := 2

/-! ## Data model -/

/-- Rectangle `struct drm_clip_rect`: four `unsigned short` corners. -/
structure drm_clip_rect where
  x1 : Nat
  y1 : Nat
  x2 : Nat
  y2 : Nat
  deriving DecidableEq, Repr

/-- Extended per-buffer attributes, `struct adf_buffer_config_ext`. -/
structure adf_buffer_config_ext where
  crop : drm_clip_rect
  display : drm_clip_rect
  transform : Nat
  blend_type : Nat
  plane_alpha : Nat
  deriving DecidableEq, Repr

/-- Custom payload of a post, `struct adf_post_ext`: an id followed by the
flexible array `bufs_ext[]`. -/
structure adf_post_ext where
  post_id : Nat
  bufs_ext : Nat → adf_buffer_config_ext

/-- The fields of `struct drm_mode_modeinfo` the validation reads. -/
structure drm_mode_modeinfo where
  hdisplay : Nat
  vdisplay : Nat
  deriving DecidableEq, Repr

/-- An interface object (`struct adf_interface`) with the address it lives at. -/
structure adf_interface where
  addr : Nat
  current_mode : drm_mode_modeinfo
  deriving DecidableEq, Repr

/-- An overlay engine object (`struct adf_overlay_engine`) with the address it
lives at.  `supported_formats` is `ops->supported_formats`, an array of
`ops->n_supported_formats` entries. -/
structure adf_overlay_engine where
  addr : Nat
  supported_formats : List Nat
  deriving DecidableEq, Repr

/-- Field `ops->n_supported_formats` of an overlay engine. -/
def adf_overlay_engine.n_supported_formats (overlay : adf_overlay_engine) : Nat :=
  overlay.supported_formats.length

/-- One `struct adf_attachment`: a pair of pointers. -/
structure adf_attachment where
  interface : Option adf_interface
  overlay_engine : Option adf_overlay_engine
  deriving DecidableEq, Repr

/-- Comparison `p == q` of two overlay-engine pointers. -/
def overlay_ptr_eq (p q : Option adf_overlay_engine) : Bool :=
  p.map (fun o => o.addr) == q.map (fun o => o.addr)

/-- A kernel buffer, `struct adf_buffer`.  The three per-plane arrays have
`ADF_MAX_PLANES` entries; a `dma_buf` pointer is kept as its address, 0 being
NULL.  The acquire fence is not read by this file. -/
structure adf_buffer where
  overlay_engine : Option adf_overlay_engine
  w : Nat
  h : Nat
  format : Nat
  dma_bufs : Nat → Nat
  offset : Nat → Nat
  pitch : Nat → Nat
  n_planes : Nat

/-- A post configuration, `struct adf_post`, without the mappings, which
`validate` sets to NULL and nothing here reads. -/
structure adf_post where
  n_bufs : Nat
  bufs : Nat → adf_buffer
  custom_data_size : Nat
  custom_data : adf_post_ext

/-- The parts of `struct adf_device` read here: the two id registries
(`idr_find` on `interfaces` and `overlay_engines`) and the attachment list in
list order. -/
structure adf_device where
  interfaces : Nat → Option adf_interface
  overlay_engines : Nat → Option adf_overlay_engine
  attached : List adf_attachment

/-! ## Attachment lookup and the single-buffer policy -/

/-- One step of the `list_for_each_entry` loop of
`get_interface_attached_to_overlay`. -/
def attached_step (overlay : Option adf_overlay_engine)
    (interface : Option adf_interface) (entry : adf_attachment) : Option adf_interface :=
  if overlay_ptr_eq entry.overlay_engine overlay then entry.interface else interface

/-- Lookup of the interface an overlay feeds: walks `dev->attached` from the
head, starting from NULL. -/
def get_interface_attached_to_overlay (dev : adf_device)
    (overlay : Option adf_overlay_engine) : Option adf_interface :=
  dev.attached.foldl (attached_step overlay) none

/-- The format scan `for (i = 0; i < n_supported_formats; i++) if (...) break;`
started at index `i` on the formats not yet visited; the result is the value
of `i` when the loop ends. -/
def scan_supported_formats (format : Nat) : List Nat → Nat → Nat
  | [], i => i
  | f :: rest, i => if format = f then i else scan_supported_formats format rest (i + 1)

/-- Body of the per-buffer loop of `adf_img_validate_simple` for one entry of
`bufs_ext`: `true` when the body returns `-EINVAL`. -/
def buf_ext_rejected (H : Headers) (buf_ext : adf_buffer_config_ext)
    (hdisplay vdisplay : Nat) : Bool :=
  if (buf_ext.crop.x1 ≠ 0 ∨ buf_ext.crop.y1 ≠ 0 ∨
      buf_ext.crop.x2 ≠ hdisplay ∨ buf_ext.crop.y2 ≠ vdisplay) ∧
     (buf_ext.crop.x2 > hdisplay ∨ buf_ext.crop.y2 > vdisplay) then true
  else if (buf_ext.display.x1 ≠ 0 ∨ buf_ext.display.y1 ≠ 0 ∨
      buf_ext.display.x2 ≠ hdisplay ∨ buf_ext.display.y2 ≠ vdisplay) ∧
     (buf_ext.display.x2 > hdisplay ∨ buf_ext.display.y2 > vdisplay) then true
  else if buf_ext.transform ≠ H.ADF_BUFFER_TRANSFORM_NONE_EXT then true
  else if buf_ext.blend_type ≠ H.ADF_BUFFER_BLENDING_PREMULT_EXT ∧
     buf_ext.blend_type ≠ H.ADF_BUFFER_BLENDING_NONE_EXT then true
  else if buf_ext.plane_alpha ≠ 0xff then true
  else false

/-- The loop `for (i = 0; i < cfg->n_bufs; i++)` over the extended metadata,
with `k` iterations left and the counter at `i`; the value is the status the
function returns. -/
def validate_bufs_ext (H : Headers) (post_ext : adf_post_ext) (interface : adf_interface) :
    Nat → Nat → Int
  | 0, _ => 0
  | k + 1, i =>
    if buf_ext_rejected H (post_ext.bufs_ext i)
        interface.current_mode.hdisplay interface.current_mode.vdisplay then -EINVAL
    else validate_bufs_ext H post_ext interface k (i + 1)

/-- The policy `adf_img_validate_simple`.  `driver_state` is the content of the
cell the out-parameter points to when the function is entered; the second
component of the result is its content when the function returns. -/
def adf_img_validate_simple (H : Headers) (dev : adf_device) (cfg : adf_post)
    (driver_state : Option Nat) : Int × Option Nat :=
  let post_ext := cfg.custom_data
  if cfg.n_bufs = 0 then (0, driver_state)
  else
    let expected_custom_data_size :=
      (H.sizeof_adf_post_ext + cfg.n_bufs * H.sizeof_adf_buffer_config_ext) % SIZE_T_MOD
    if cfg.custom_data_size ≠ expected_custom_data_size then (-EINVAL, driver_state)
    else if cfg.n_bufs ≠ 1 then (-EINVAL, driver_state)
    else
      let buffer := cfg.bufs 0
      match buffer.overlay_engine with
      | none => (-EINVAL, driver_state)
      | some overlay =>
        let i := scan_supported_formats buffer.format overlay.supported_formats 0
        if i = overlay.n_supported_formats then (-EINVAL, driver_state)
        else
          match get_interface_attached_to_overlay dev (some overlay) with
          | none => (-EINVAL, driver_state)
          | some interface =>
            if buffer.w ≠ interface.current_mode.hdisplay then (-EINVAL, driver_state)
            else if buffer.h ≠ interface.current_mode.vdisplay then (-EINVAL, driver_state)
            else if buffer.n_planes ≠ 1 then (-EINVAL, driver_state)
            else if buffer.offset 0 ≠ 0 then (-EINVAL, driver_state)
            else (validate_bufs_ext H post_ext interface cfg.n_bufs 0, driver_state)

/-! ## The marshaling entry point `validate` -/

/-- Modelled from the spec: the largest errno an error pointer can carry.
`MAX_ERRNO` comes from the kernel's `linux/err.h`, which is not under `src/`;
4095 is its Linux value. -/
def MAX_ERRNO : Nat := 4095

/-- Kernel macro `IS_ERR_OR_NULL` on a pointer given by its address: NULL, or one
of the top `MAX_ERRNO` addresses. -/
def IS_ERR_OR_NULL (p : Nat) : Bool :=
  p = 0 || decide (p ≥ SIZE_T_MOD - MAX_ERRNO)

/-- Kernel macro `PTR_ERR`: the address read as a `long`. -/
def PTR_ERR (p : Nat) : Int :=
  if p % SIZE_T_MOD < SIZE_T_MOD / 2 then (p % SIZE_T_MOD : Nat) else (p % SIZE_T_MOD : Nat) - (SIZE_T_MOD : Int)

/-- Conversion of a `long` to the `int` variable `err`: the low 32 bits, signed. -/
def long_to_int (x : Int) : Int :=
  (x + 2 ^ 31) % 2 ^ 32 - 2 ^ 31

/-- The request header `struct adf_validate_config_ext`; the three pointers
are addresses in the caller's memory. -/
structure adf_validate_config_ext where
  n_interfaces : Nat
  interfaces : Nat
  n_bufs : Nat
  bufs : Nat
  post_ext : Nat
  deriving DecidableEq, Repr

/-- One caller-supplied buffer config, `struct adf_buffer_config`. -/
structure adf_buffer_config where
  overlay_engine : Nat
  w : Nat
  h : Nat
  format : Nat
  fd : Nat → Int
  offset : Nat → Nat
  pitch : Nat → Nat
  n_planes : Nat

/-- What the caller's address space answers to the kernel's accessors.  Every
read may fault (`none`). -/
structure UserMemory where
  /-- Result of `copy_from_user(&data, arg, sizeof(data))` for a given `arg` -/
  validate_config : Nat → Option adf_validate_config_ext
  /-- Result of `access_ok(addr, size)` -/
  access_ok : Nat → Nat → Bool
  /-- Result of `copy_from_user(post_ext, addr, size)` -/
  post_ext : Nat → Nat → Option adf_post_ext
  /-- Result of `get_user(intf_id, &base[i])` -/
  interface_id : Nat → Nat → Option Nat
  /-- Result of `copy_from_user(&config, &base[i], sizeof(config))` -/
  buffer_config : Nat → Nat → Option adf_buffer_config

/-- The three allocations of `validate`. -/
inductive Alloc where
  | post_ext
  | intfs
  | bufs
  deriving DecidableEq, Repr

/-- What the kernel answers: whether each allocation succeeds, and the pointer
`dma_buf_get(fd)` returns to the call made for plane `j` of buffer `i`. -/
structure Kernel where
  kmalloc_ok : Alloc → Bool
  dma_buf_get : (i j : Nat) → Int → Nat

/-- The driver's capabilities `dev->ops`: the validate callback, which gets the
content of the `driver_state` cell and returns its status with the new
content, and whether `state_free` is non-NULL. -/
structure adf_device_ops where
  validate : adf_device → adf_post → Option Nat → Int × Option Nat
  state_free : Bool

/-- Resource events of one run of `validate`, in program order.  The argument
of `ops_state_free` is the content of the local `driver_state`: `none` while
nothing has been stored in it. -/
inductive Event where
  | kmalloc (what : Alloc) (ok : Bool)
  | kfree (what : Alloc) (allocated : Bool)
  | dma_buf_get (fd : Int) (result : Nat)
  | dma_buf_put (dmabuf : Nat)
  | ops_validate
  | ops_state_free (driver_state : Option Nat)
  deriving DecidableEq, Repr

/-- An `adf_buffer` of zero bytes, as `kcalloc` and `memset` leave it. -/
def zero_buffer : adf_buffer where
  overlay_engine := none
  w := 0
  h := 0
  format := 0
  dma_bufs := fun _ => 0
  offset := fun _ => 0
  pitch := fun _ => 0
  n_planes := 0

/-- Array store `a[i] = v`. -/
def store {α : Type} (a : Nat → α) (i : Nat) (v : α) : Nat → α :=
  fun k => if k = i then v else a k

/-- The buffer `bufs[i]` as the buffer loop has filled it when it enters the
plane loop: zeroed, then overlay engine, size and format stored. -/
def fresh_buffer (overlay : adf_overlay_engine) (config : adf_buffer_config) : adf_buffer :=
  { zero_buffer with
    overlay_engine := some overlay, w := config.w, h := config.h, format := config.format }

/-- Label `err_out`: the three `kfree` calls, then `return err`.  The flags say
which of the pointers are non-NULL. -/
def err_out (post_ext intfs bufs : Bool) (err : Int) (tr : List Event) : Int × List Event :=
  (err, tr ++ [Event.kfree Alloc.post_ext post_ext, Event.kfree Alloc.intfs intfs,
    Event.kfree Alloc.bufs bufs])

/-- Inner loop of `err_import` over the planes of one buffer, `k` iterations
left, counter at `j`. -/
def put_planes (buf : adf_buffer) : Nat → Nat → List Event
  | 0, _ => []
  | k + 1, j =>
    (if buf.dma_bufs j ≠ 0 then [Event.dma_buf_put (buf.dma_bufs j)] else [])
      ++ put_planes buf k (j + 1)

/-- Outer loop of `err_import` over the buffers, `k` iterations left, counter
at `i`; the inner bound is `ARRAY_SIZE(bufs[i].dma_bufs)`. -/
def put_buffers (H : Headers) (bufs : Nat → adf_buffer) : Nat → Nat → List Event
  | 0, _ => []
  | k + 1, i => put_planes (bufs i) H.ADF_MAX_PLANES 0 ++ put_buffers H bufs k (i + 1)

/-- Label `err_import`: release the imported handles, then fall into `err_out`. -/
def err_import (H : Headers) (data : adf_validate_config_ext) (bufs : Nat → adf_buffer)
    (post_ext intfs bufs_allocated : Bool) (err : Int) (tr : List Event) : Int × List Event :=
  err_out post_ext intfs bufs_allocated err (tr ++ put_buffers H bufs data.n_bufs 0)

/-- The interface loop (lines 129-141), `k` iterations left, counter at `i`:
`none` when it runs to its end, `some err` when it leaves through `err_out`.
The array `intfs` it fills is not read again. -/
def resolve_interfaces (um : UserMemory) (dev : adf_device) (data : adf_validate_config_ext) :
    Nat → Nat → Option Int
  | 0, _ => none
  | k + 1, i =>
    match um.interface_id data.interfaces i with
    | none => some (-EFAULT)
    | some intf_id =>
      match dev.interfaces intf_id with
      | none => some (-EINVAL)
      | some _ => resolve_interfaces um dev data k (i + 1)

/-- The plane loop (lines 177-186) for buffer `i`, `k` iterations left, counter
at `j`.  The first component is `some err` when the loop leaves through
`err_import`. -/
def import_planes (kern : Kernel) (config : adf_buffer_config) (i : Nat) :
    Nat → Nat → adf_buffer → List Event → Option Int × adf_buffer × List Event
  | 0, _, buf, tr => (none, buf, tr)
  | k + 1, j, buf, tr =>
    let p := kern.dma_buf_get i j (config.fd j)
    let tr := tr ++ [Event.dma_buf_get (config.fd j) p]
    let buf := { buf with dma_bufs := store buf.dma_bufs j p }
    if IS_ERR_OR_NULL (buf.dma_bufs j) then
      (some (long_to_int (PTR_ERR (buf.dma_bufs j))),
        { buf with dma_bufs := store buf.dma_bufs j 0 }, tr)
    else
      import_planes kern config i k (j + 1)
        { buf with offset := store buf.offset j (config.offset j),
                   pitch := store buf.pitch j (config.pitch j) } tr

/-- Where the buffer loop leaves to. -/
inductive Jump where
  | err_out (err : Int)
  | err_import (err : Int)
  | done
  deriving DecidableEq, Repr

/-- The buffer loop (lines 151-190), `k` iterations left, counter at `i`. -/
def import_buffers (H : Headers) (um : UserMemory) (kern : Kernel) (dev : adf_device)
    (data : adf_validate_config_ext) :
    Nat → Nat → (Nat → adf_buffer) → List Event → Jump × (Nat → adf_buffer) × List Event
  | 0, _, bufs, tr => (Jump.done, bufs, tr)
  | k + 1, i, bufs, tr =>
    match um.buffer_config data.bufs i with
    | none => (Jump.err_out (-EFAULT), bufs, tr)
    | some config =>
      let bufs := store bufs i zero_buffer
      if config.n_planes > H.ADF_MAX_PLANES then (Jump.err_import (-EINVAL), bufs, tr)
      else
        let bufs := store bufs i
          { bufs i with overlay_engine := dev.overlay_engines config.overlay_engine }
        if (bufs i).overlay_engine = none then (Jump.err_import (-ENOENT), bufs, tr)
        else
          let buf := { bufs i with w := config.w, h := config.h, format := config.format }
          match import_planes kern config i config.n_planes 0 buf tr with
          | (some err, buf, tr) => (Jump.err_import err, store bufs i buf, tr)
          | (none, buf, tr) =>
            import_buffers H um kern dev data k (i + 1)
              (store bufs i { buf with n_planes := config.n_planes }) tr

/-- Lines 192-201: the post configuration faked up for the driver. -/
def post_cfg (data : adf_validate_config_ext) (post_ext : adf_post_ext) (post_ext_size : Nat)
    (bufs : Nat → adf_buffer) : adf_post where
  custom_data_size := post_ext_size
  custom_data := post_ext
  n_bufs := data.n_bufs
  bufs := bufs

/-- Lines 192-223: build the post, call the driver, free its state, release.
The local `driver_state` is not initialised: the driver is handed a cell
holding nothing. -/
def validate_post (H : Headers) (ops : adf_device_ops) (dev : adf_device)
    (data : adf_validate_config_ext) (post_ext : adf_post_ext) (post_ext_size : Nat)
    (intfs bufs_allocated : Bool) (bufs : Nat → adf_buffer) (tr : List Event) :
    Int × List Event :=
  let r := ops.validate dev (post_cfg data post_ext post_ext_size bufs) none
  let err := r.1
  let driver_state := r.2
  let tr := tr ++ [Event.ops_validate]
  if err ≠ 0 then err_import H data bufs true intfs bufs_allocated err tr
  else
    let tr := if ops.state_free then tr ++ [Event.ops_state_free driver_state] else tr
    err_import H data bufs true intfs bufs_allocated err tr

/-- Lines 143-190: allocate the buffer array and run the buffer loop. -/
def validate_bufs (H : Headers) (um : UserMemory) (kern : Kernel) (ops : adf_device_ops)
    (dev : adf_device) (data : adf_validate_config_ext) (post_ext : adf_post_ext)
    (post_ext_size : Nat) (intfs : Bool) (tr : List Event) : Int × List Event :=
  let alloc := data.n_bufs ≠ 0 && kern.kmalloc_ok Alloc.bufs
  let tr := if data.n_bufs ≠ 0 then tr ++ [Event.kmalloc Alloc.bufs alloc] else tr
  if data.n_bufs ≠ 0 ∧ alloc = false then err_out true intfs false (-ENOMEM) tr
  else
    match import_buffers H um kern dev data data.n_bufs 0 (fun _ => zero_buffer) tr with
    | (Jump.err_out err, _, tr) => err_out true intfs alloc err tr
    | (Jump.err_import err, bufs, tr) => err_import H data bufs true intfs alloc err tr
    | (Jump.done, bufs, tr) =>
      validate_post H ops dev data post_ext post_ext_size intfs alloc bufs tr

/-- Lines 115-141: allocate the interface array and resolve the interface ids. -/
def validate_intfs (H : Headers) (um : UserMemory) (kern : Kernel) (ops : adf_device_ops)
    (dev : adf_device) (data : adf_validate_config_ext) (post_ext : adf_post_ext)
    (post_ext_size : Nat) (tr : List Event) : Int × List Event :=
  if data.n_interfaces ≠ 0 ∧
      um.access_ok data.interfaces
        ((H.sizeof_interface_id * data.n_interfaces) % SIZE_T_MOD) = false then
    err_out true false false (-EFAULT) tr
  else
    let alloc := data.n_interfaces ≠ 0 && kern.kmalloc_ok Alloc.intfs
    let tr := if data.n_interfaces ≠ 0 then tr ++ [Event.kmalloc Alloc.intfs alloc] else tr
    if data.n_interfaces ≠ 0 ∧ alloc = false then err_out true false false (-ENOMEM) tr
    else
      match resolve_interfaces um dev data data.n_interfaces 0 with
      | some err => err_out true alloc false err tr
      | none => validate_bufs H um kern ops dev data post_ext post_ext_size alloc tr

/-- The entry point `validate` (lines 63-223): status returned and the events
performed, for the request at address `arg` of the caller's memory. -/
def validate (H : Headers) (um : UserMemory) (kern : Kernel) (ops : adf_device_ops)
    (dev : adf_device) (arg : Nat) : Int × List Event :=
  match um.validate_config arg with
  | none => err_out false false false (-EFAULT) []
  | some data =>
    if data.n_interfaces > H.ADF_MAX_INTERFACES then err_out false false false (-EINVAL) []
    else if data.n_bufs > H.ADF_MAX_BUFFERS then err_out false false false (-EINVAL) []
    else
      let post_ext_size :=
        (H.sizeof_adf_post_ext + data.n_bufs * H.sizeof_adf_buffer_config_ext) % U32_MOD
      if um.access_ok data.bufs
          ((H.sizeof_adf_buffer_config * data.n_bufs) % SIZE_T_MOD) = false then
        err_out false false false (-EFAULT) []
      else if kern.kmalloc_ok Alloc.post_ext = false then
        err_out false false false (-ENOMEM) [Event.kmalloc Alloc.post_ext false]
      else
        let tr := [Event.kmalloc Alloc.post_ext true]
        if um.access_ok data.post_ext post_ext_size = false then
          err_out true false false (-EFAULT) tr
        else
          match um.post_ext data.post_ext post_ext_size with
          | none => err_out true false false (-EFAULT) tr
          | some post_ext => validate_intfs H um kern ops dev data post_ext post_ext_size tr

/-- The ioctl handler `adf_img_ioctl_validate`: `sizeof(*arg)` is the 32 bytes
the file asserts for the request. -/
def adf_img_ioctl_validate (H : Headers) (um : UserMemory) (kern : Kernel)
    (ops : adf_device_ops) (dev : adf_device) (arg : Nat) : Int × List Event :=
  if um.access_ok arg 32 = false then (-EFAULT, [])
  else validate H um kern ops dev arg

/-- Trace projection: the handles a run imported successfully, in order. -/
def imported : List Event → List Nat
  | [] => []
  | Event.dma_buf_get _ p :: tr => if IS_ERR_OR_NULL p then imported tr else p :: imported tr
  | _ :: tr => imported tr

/-- Trace projection: the handles a run released, in order. -/
def released : List Event → List Nat
  | [] => []
  | Event.dma_buf_put p :: tr => p :: released tr
  | _ :: tr => released tr

/-- Trace projection: the arguments `state_free` was called with, in order. -/
def state_freed : List Event → List (Option Nat)
  | [] => []
  | Event.ops_state_free d :: tr => d :: state_freed tr
  | _ :: tr => state_freed tr

/-- Trace predicate: the event is an import attempt, an allocation or a call of the
driver's validate capability. -/
def Event.acquires : Event → Bool
  | Event.dma_buf_get _ _ => true
  | Event.kmalloc _ _ => true
  | Event.ops_validate => true
  | _ => false

/-! ## Buffer sanity check and rectangle intersection -/

/-- The test `buf->pitch == 0` of line 492.  `pitch` is an array member of
`struct adf_buffer`, so the expression compares the address of that member
with NULL: it is false for every buffer. -/
def pitch_member_is_null (_buf : adf_buffer) : Bool := false

/-- The plane loop of `adf_img_buffer_sanity_check` (lines 505-517), `k`
iterations left, counter at `plane`: `false` when the loop returns false.
The loop has no guard of its own on `n_planes`; the arrays `dma_bufs` and
`pitch` of `struct adf_buffer` have `ADF_MAX_PLANES` entries, and the index
functions stand for them at indices below `ADF_MAX_PLANES` only.  An iteration
at a higher index reads past the arrays in C, which this function does not
describe: it is the loop of the source for buffers with
`n_planes ≤ ADF_MAX_PLANES`, and for larger plane counts as long as the loop
returns false at an index below `ADF_MAX_PLANES`. -/
def planes_sane (buf : adf_buffer) : Nat → Nat → Bool
  | 0, _ => true
  | k + 1, plane =>
    if buf.dma_bufs plane = 0 then false
    else if buf.pitch plane = 0 then false
    else planes_sane buf k (plane + 1)

/-- The gate `adf_img_buffer_sanity_check`.  The interface is used by the source
for its log messages only.  The plane loop is `planes_sane`, so the result is
that of the source for buffers with `n_planes ≤ ADF_MAX_PLANES`, the bound
`validate` enforces at line 161 before it fills a buffer, and whenever one of
the tests before the plane loop returns false. -/
def adf_img_buffer_sanity_check (H : Headers) (_intf : adf_interface) (buf : adf_buffer)
    (buf_ext : adf_buffer_config_ext) : Bool :=
  if buf.w = 0 then false
  else if buf.h = 0 then false
  else if buf.format = 0 then false
  else if pitch_member_is_null buf then false
  else if buf.n_planes = 0 then false
  else if buf.overlay_engine = none then false
  else if planes_sane buf buf.n_planes 0 = false then false
  else if buf_ext.crop.x1 ≥ buf_ext.crop.x2 ∨ buf_ext.crop.y1 ≥ buf_ext.crop.y2 then false
  else if buf_ext.crop.x1 > buf.w ∨ buf_ext.crop.x2 > buf.w ∨
      buf_ext.crop.y1 > buf.h ∨ buf_ext.crop.y2 > buf.h then false
  else if buf_ext.display.x1 ≥ buf_ext.display.x2 ∨
      buf_ext.display.y1 ≥ buf_ext.display.y2 then false
  else if buf_ext.crop.x1 > buf.w ∨ buf_ext.crop.x2 > buf.w ∨
      buf_ext.crop.y1 > buf.h ∨ buf_ext.crop.y2 > buf.h then false
  else if ¬ (buf_ext.transform = H.ADF_BUFFER_TRANSFORM_NONE_EXT ∨
      buf_ext.transform = H.ADF_BUFFER_TRANSFORM_FLIP_H_EXT ∨
      buf_ext.transform = H.ADF_BUFFER_TRANSFORM_FLIP_V_EXT ∨
      buf_ext.transform = H.ADF_BUFFER_TRANSFORM_ROT_90_EXT ∨
      buf_ext.transform = H.ADF_BUFFER_TRANSFORM_ROT_180_EXT ∨
      buf_ext.transform = H.ADF_BUFFER_TRANSFORM_ROT_270_EXT) then false
  else if ¬ (buf_ext.blend_type = H.ADF_BUFFER_BLENDING_NONE_EXT ∨
      buf_ext.blend_type = H.ADF_BUFFER_BLENDING_PREMULT_EXT ∨
      buf_ext.blend_type = H.ADF_BUFFER_BLENDING_COVERAGE_EXT) then false
  else true

/-- The predicate `adf_img_rects_intersect`. -/
def adf_img_rects_intersect (rect1 rect2 : drm_clip_rect) : Bool :=
  if rect1.x1 < rect2.x2 ∧ rect1.x2 > rect2.x1 ∧ rect1.y1 < rect2.y2 ∧ rect1.y2 > rect2.y1 then
    true
  else false

/-! ## The 32-bit compatibility handler -/

/-- The legacy request `struct adf_validate_config_ext32`: five packed 32-bit
fields, 20 bytes. -/
structure adf_validate_config_ext32 where
  n_interfaces : Nat
  interfaces : Nat
  n_bufs : Nat
  bufs : Nat
  post_ext : Nat
  deriving DecidableEq, Repr

/-- Kernel helper `compat_ptr`: a 32-bit user pointer widened to a pointer, the
value unchanged. -/
def compat_ptr (uptr : Nat) : Nat := uptr

/-- The local `arg` of `adf_img_ioctl_validate_compat` after lines 275-279. -/
def compat_arg (arg_compat : adf_validate_config_ext32) : adf_validate_config_ext where
  n_interfaces := arg_compat.n_interfaces
  interfaces := compat_ptr arg_compat.interfaces
  n_bufs := arg_compat.n_bufs
  bufs := compat_ptr arg_compat.bufs
  post_ext := compat_ptr arg_compat.post_ext

/-- What the accessors answer once a handler's local request lives at the kernel
address `local_addr`.  A kernel object is outside the caller's address space:
`copy_from_user` reads it only while the address limit is lifted
(`kernel_ds`), and faults otherwise.  The kernel's accessors are not part of
this file, so the state of the limit is a parameter. -/
def with_kernel_local (um : UserMemory) (kernel_ds : Bool) (local_addr : Nat)
    (arg : adf_validate_config_ext) : UserMemory :=
  { um with
    validate_config := fun a =>
      if a = local_addr then (if kernel_ds then some arg else none) else um.validate_config a }

/-- The handler `adf_img_ioctl_validate_compat`.  `arg_compat` is the caller's
pointer and `legacy` the record it points to, which the handler reads field by
field; `local_addr` is the address of the handler's local `arg`, which it
passes to `validate`.  `sizeof(*arg_compat)` is 20. -/
def adf_img_ioctl_validate_compat (H : Headers) (um : UserMemory) (kern : Kernel)
    (ops : adf_device_ops) (dev : adf_device) (kernel_ds : Bool) (local_addr : Nat)
    (arg_compat : Nat) (legacy : adf_validate_config_ext32) : Int × List Event :=
  if um.access_ok arg_compat 20 = false then (-EFAULT, [])
  else
    let arg := compat_arg legacy
    validate H (with_kernel_local um kernel_ds local_addr arg) kern ops dev local_addr

/-! ## Vocabulary of the statements -/

/-- Trace projection: the number of calls of the driver's validate capability. -/
def driver_validations : List Event → Nat
  | [] => 0
  | Event.ops_validate :: tr => driver_validations tr + 1
  | _ :: tr => driver_validations tr

/-- An extended-metadata entry with the origins of its two rectangles replaced. -/
def buf_ext_with_origins (e : adf_buffer_config_ext) (o : drm_clip_rect × drm_clip_rect) :
    adf_buffer_config_ext :=
  { e with crop := { e.crop with x1 := o.1.x1, y1 := o.1.y1 },
           display := { e.display with x1 := o.2.x1, y1 := o.2.y1 } }

/-- A post whose extended-metadata entries have their rectangle origins replaced:
entry `i` takes the `x1`, `y1` of the pair `origins i`; nothing else changes. -/
def post_with_origins (cfg : adf_post) (origins : Nat → drm_clip_rect × drm_clip_rect) :
    adf_post :=
  { cfg with
    custom_data := { cfg.custom_data with
      bufs_ext := fun i => buf_ext_with_origins (cfg.custom_data.bufs_ext i) (origins i) } }

/-- Lines 76-127 of `validate` pass: the header and the payload are read, the
counts are within their limits, the ranges pass `access_ok` and the
allocations of the payload and of the interface array succeed. -/
def header_marshals (H : Headers) (um : UserMemory) (kern : Kernel) (arg : Nat)
    (data : adf_validate_config_ext) (post_ext : adf_post_ext) : Prop :=
  um.validate_config arg = some data ∧
  data.n_interfaces ≤ H.ADF_MAX_INTERFACES ∧
  data.n_bufs ≤ H.ADF_MAX_BUFFERS ∧
  um.access_ok data.bufs ((H.sizeof_adf_buffer_config * data.n_bufs) % SIZE_T_MOD) = true ∧
  kern.kmalloc_ok Alloc.post_ext = true ∧
  um.access_ok data.post_ext
    ((H.sizeof_adf_post_ext + data.n_bufs * H.sizeof_adf_buffer_config_ext) % U32_MOD) = true ∧
  um.post_ext data.post_ext
    ((H.sizeof_adf_post_ext + data.n_bufs * H.sizeof_adf_buffer_config_ext) % U32_MOD)
      = some post_ext ∧
  (data.n_interfaces ≠ 0 →
    um.access_ok data.interfaces ((H.sizeof_interface_id * data.n_interfaces) % SIZE_T_MOD)
      = true ∧
    kern.kmalloc_ok Alloc.intfs = true)

/-- Interface id number `m` of the request is readable and resolves in the
device's interface registry. -/
def interface_resolves (um : UserMemory) (dev : adf_device) (data : adf_validate_config_ext)
    (m : Nat) : Prop :=
  ∃ id intf, um.interface_id data.interfaces m = some id ∧ dev.interfaces id = some intf

/-- Buffer config number `m` of the request marshals: it is readable, its plane
count is within `ADF_MAX_PLANES`, its overlay id resolves and each of its
planes imports. -/
def buffer_imports (H : Headers) (um : UserMemory) (kern : Kernel) (dev : adf_device)
    (data : adf_validate_config_ext) (m : Nat) : Prop :=
  ∃ config overlay, um.buffer_config data.bufs m = some config ∧
    config.n_planes ≤ H.ADF_MAX_PLANES ∧
    dev.overlay_engines config.overlay_engine = some overlay ∧
    ∀ j, j < config.n_planes → IS_ERR_OR_NULL (kern.dma_buf_get m j (config.fd j)) = false

/-! ## Concrete inputs used to exercise the statements -/

/-- A 1920x1080 interface. -/
def hd_interface : adf_interface := { addr := 0x2000, current_mode := { hdisplay := 1920, vdisplay := 1080 } }

/-- A 1280x720 interface. -/
def small_interface : adf_interface := { addr := 0x3000, current_mode := { hdisplay := 1280, vdisplay := 720 } }

/-- An overlay engine that supports two formats. -/
def rgb_overlay : adf_overlay_engine := { addr := 0x1000, supported_formats := [0x34325258, 0x34324152] }

/-- A device whose overlay is attached first to the small interface, then to the
1920x1080 one. -/
def hd_device : adf_device where
  interfaces := fun id => if id = 1 then some small_interface else if id = 2 then some hd_interface else none
  overlay_engines := fun id => if id = 7 then some rgb_overlay else none
  attached := [{ interface := some small_interface, overlay_engine := some rgb_overlay },
               { interface := some hd_interface, overlay_engine := some rgb_overlay }]

/-- A full-screen single-plane 1920x1080 buffer on `rgb_overlay`. -/
def hd_buffer : adf_buffer where
  overlay_engine := some rgb_overlay
  w := 1920
  h := 1080
  format := 0x34324152
  dma_bufs := fun j => if j = 0 then 0xffff800012340000 else 0
  offset := fun _ => 0
  pitch := fun j => if j = 0 then 7680 else 0
  n_planes := 1

/-- A one-buffer post of `hd_buffer` with the given crop and display rectangles,
no transform, premultiplied blending and full alpha. -/
def hd_post (crop display : drm_clip_rect) : adf_post where
  n_bufs := 1
  bufs := fun _ => hd_buffer
  custom_data_size := 32
  custom_data :=
    { post_id := 1
      bufs_ext := fun _ =>
        { crop := crop, display := display, transform := 0, blend_type := 1, plane_alpha := 255 } }

/-- The full 1920x1080 rectangle. -/
def full_hd : drm_clip_rect := { x1 := 0, y1 := 0, x2 := 1920, y2 := 1080 }

/-- A crop rectangle whose origin lies beyond the mode while its far corner lies
inside it. -/
def inverted_crop : drm_clip_rect := { x1 := 5000, y1 := 0, x2 := 100, y2 := 100 }

/-- A null flip whose other fields hold leftovers: a payload size that matches
nothing and a buffer array that was never filled. -/
def null_flip_post : adf_post where
  n_bufs := 0
  bufs := fun _ => zero_buffer
  custom_data_size := 12345
  custom_data :=
    { post_id := 9
      bufs_ext := fun _ =>
        { crop := inverted_crop, display := inverted_crop, transform := 99, blend_type := 99,
          plane_alpha := 3 } }

/-- A rectangle strictly inside 1920x1080, with an origin away from the corner. -/
def quarter_hd : drm_clip_rect := { x1 := 16, y1 := 8, x2 := 960, y2 := 540 }

/-- The address of a live `dma_buf`. -/
def live_dma_buf : Nat := 0xffff800012340000

/-- A kernel in which every allocation succeeds and every `dma_buf_get` returns
`live_dma_buf`. -/
def generous_kernel : Kernel where
  kmalloc_ok := fun _ => true
  dma_buf_get := fun _ _ _ => live_dma_buf

/-- A buffer config of one plane on file descriptor 3, for overlay id 7. -/
def one_plane_config : adf_buffer_config where
  overlay_engine := 7
  w := 1920
  h := 1080
  format := 0x34324152
  fd := fun _ => 3
  offset := fun _ => 0
  pitch := fun _ => 7680
  n_planes := 1

/-- The payload the caller passes with its requests. -/
def caller_post_ext : adf_post_ext where
  post_id := 1
  bufs_ext := fun _ =>
    { crop := full_hd, display := full_hd, transform := 0, blend_type := 1, plane_alpha := 255 }

/-- A caller whose request at `0x4000` names two buffer configs of which only
the first can be read: the page holding the second is not mapped, although
the range passes `access_ok`. -/
def half_mapped_caller : UserMemory where
  validate_config := fun arg =>
    if arg = 0x4000 then
      some { n_interfaces := 0, interfaces := 0, n_bufs := 2, bufs := 0x5000, post_ext := 0x6000 }
    else none
  access_ok := fun _ _ => true
  post_ext := fun _ _ => some caller_post_ext
  interface_id := fun _ _ => none
  buffer_config := fun _ i => if i = 0 then some one_plane_config else none

/-- A caller whose request at `0x4000` is a null flip: no interface, no buffer. -/
def null_flip_caller : UserMemory where
  validate_config := fun arg =>
    if arg = 0x4000 then
      some { n_interfaces := 0, interfaces := 0, n_bufs := 0, bufs := 0, post_ext := 0x6000 }
    else none
  access_ok := fun _ _ => true
  post_ext := fun _ _ => some caller_post_ext
  interface_id := fun _ _ => none
  buffer_config := fun _ _ => none

/-- A caller whose request at `0x4000` names 57 buffers, one more than
`ADF_MAX_BUFFERS` of `linux_headers`; all its memory is readable. -/
def greedy_caller : UserMemory where
  validate_config := fun arg =>
    if arg = 0x4000 then
      some { n_interfaces := 0, interfaces := 0, n_bufs := 57, bufs := 0x5000, post_ext := 0x6000 }
    else none
  access_ok := fun _ _ => true
  post_ext := fun _ _ => some caller_post_ext
  interface_id := fun _ _ => none
  buffer_config := fun _ _ => some one_plane_config

/-- A driver that validates with `adf_img_validate_simple` and also provides a
`state_free` callback. -/
def simple_ops_with_state_free : adf_device_ops where
  validate := adf_img_validate_simple linux_headers
  state_free := true

/-- A driver that validates with `adf_img_validate_simple` and has no
`state_free` callback. -/
def simple_ops : adf_device_ops where
  validate := adf_img_validate_simple linux_headers
  state_free := false

/-- Extended metadata with a full-buffer crop and a display rectangle of
5000x5000, far beyond the 1920x1080 of `hd_buffer` and of `hd_interface`. -/
def wide_display_ext : adf_buffer_config_ext where
  crop := full_hd
  display := { x1 := 0, y1 := 0, x2 := 5000, y2 := 5000 }
  transform := 0
  blend_type := 1
  plane_alpha := 255

/-- A rectangle of zero width, ten high. -/
def sliver_rect : drm_clip_rect := { x1 := 3, y1 := 0, x2 := 3, y2 := 10 }

/-- The square (0,0)-(10,10). -/
def ten_square : drm_clip_rect := { x1 := 0, y1 := 0, x2 := 10, y2 := 10 }

/-- The square (10,0)-(20,10), which shares its left edge with `ten_square`. -/
def next_square : drm_clip_rect := { x1 := 10, y1 := 0, x2 := 20, y2 := 10 }

/-- The legacy form of the null flip that `null_flip_caller` holds at `0x4000`. -/
def null_flip_legacy : adf_validate_config_ext32 where
  n_interfaces := 0
  interfaces := 0
  n_bufs := 0
  bufs := 0
  post_ext := 0x6000

/-- A kernel stack address, where a handler keeps its local request. -/
def handler_local : Nat := 0xffffffc012345e00

/-- A caller whose request at `0x4000` names two interfaces and no buffer: the
first id resolves in `hd_device`, the second, 9, does not. -/
def stale_interface_caller : UserMemory where
  validate_config := fun arg =>
    if arg = 0x4000 then
      some { n_interfaces := 2, interfaces := 0x7000, n_bufs := 0, bufs := 0, post_ext := 0x6000 }
    else none
  access_ok := fun _ _ => true
  post_ext := fun _ _ => some caller_post_ext
  interface_id := fun _ i => if i = 0 then some 2 else some 9
  buffer_config := fun _ _ => none

/-- The two-buffer request header the next callers hold at `0x4000`. -/
def two_buffer_request : adf_validate_config_ext where
  n_interfaces := 0
  interfaces := 0
  n_bufs := 2
  bufs := 0x5000
  post_ext := 0x6000

/-- A caller whose second buffer config claims five planes. -/
def five_plane_caller : UserMemory where
  validate_config := fun arg => if arg = 0x4000 then some two_buffer_request else none
  access_ok := fun _ _ => true
  post_ext := fun _ _ => some caller_post_ext
  interface_id := fun _ _ => none
  buffer_config := fun _ i =>
    if i = 0 then some one_plane_config else some { one_plane_config with n_planes := 5 }

/-- A caller whose second buffer config names overlay id 8, which `hd_device`
does not have. -/
def stale_overlay_caller : UserMemory where
  validate_config := fun arg => if arg = 0x4000 then some two_buffer_request else none
  access_ok := fun _ _ => true
  post_ext := fun _ _ => some caller_post_ext
  interface_id := fun _ _ => none
  buffer_config := fun _ i =>
    if i = 0 then some one_plane_config else some { one_plane_config with overlay_engine := 8 }

/-- A caller with two readable one-plane buffer configs. -/
def two_buffer_caller : UserMemory where
  validate_config := fun arg => if arg = 0x4000 then some two_buffer_request else none
  access_ok := fun _ _ => true
  post_ext := fun _ _ => some caller_post_ext
  interface_id := fun _ _ => none
  buffer_config := fun _ _ => some one_plane_config

/-- A kernel whose `dma_buf_get` imports the plane of buffer 0 and returns NULL
for the plane of buffer 1. -/
def null_import_kernel : Kernel where
  kmalloc_ok := fun _ => true
  dma_buf_get := fun i _ _ => if i = 0 then live_dma_buf else 0

/-- A kernel whose `dma_buf_get` imports the plane of buffer 0 and returns the
error pointer `ERR_PTR(-9)` for the plane of buffer 1. -/
def bad_fd_kernel : Kernel where
  kmalloc_ok := fun _ => true
  dma_buf_get := fun i _ _ => if i = 0 then live_dma_buf else SIZE_T_MOD - 9

/-! ## Properties of the single-buffer policy -/

theorem scan_supported_formats_le (format : Nat) (fmts : List Nat) (i : Nat) :
    scan_supported_formats format fmts i ≤ i + fmts.length := by
  induction fmts generalizing i with
  | nil => simp [scan_supported_formats]
  | cons f rest ih =>
    simp only [scan_supported_formats, List.length_cons]
    split
    · omega
    · have := ih (i + 1); omega

theorem scan_supported_formats_eq_iff (format : Nat) (fmts : List Nat) (i : Nat) :
    scan_supported_formats format fmts i = i + fmts.length ↔ format ∉ fmts := by
  induction fmts generalizing i with
  | nil => simp [scan_supported_formats]
  | cons f rest ih =>
    simp only [scan_supported_formats, List.length_cons, List.mem_cons, not_or]
    by_cases hf : format = f
    · simp [hf]
    · have h := ih (i + 1)
      simp only [hf, if_false, not_false_eq_true, true_and]
      rw [← h]
      constructor <;> intro h' <;> omega

theorem scan_supported_formats_end (format : Nat) (overlay : adf_overlay_engine) :
    scan_supported_formats format overlay.supported_formats 0 = overlay.n_supported_formats
      ↔ format ∉ overlay.supported_formats := by
  have h := scan_supported_formats_eq_iff format overlay.supported_formats 0
  simpa [adf_overlay_engine.n_supported_formats] using h

theorem EINVAL_ne_zero : -EINVAL ≠ 0 := by decide

theorem buf_ext_rejected_eq_false_iff (H : Headers) (e : adf_buffer_config_ext) (hd vd : Nat) :
    buf_ext_rejected H e hd vd = false ↔
      (e.crop.x2 ≤ hd ∧ e.crop.y2 ≤ vd) ∧ (e.display.x2 ≤ hd ∧ e.display.y2 ≤ vd) ∧
      e.transform = H.ADF_BUFFER_TRANSFORM_NONE_EXT ∧
      (e.blend_type = H.ADF_BUFFER_BLENDING_NONE_EXT ∨
        e.blend_type = H.ADF_BUFFER_BLENDING_PREMULT_EXT) ∧
      e.plane_alpha = 0xff := by
  unfold buf_ext_rejected
  constructor
  · intro h
    split_ifs at h with h1 h2 h3 h4 h5
    refine ⟨?_, ?_, ?_, ?_, ?_⟩
    · by_contra hc
      apply h1
      constructor <;> omega
    · by_contra hc
      apply h2
      constructor <;> omega
    · simpa using h3
    · by_contra hc
      apply h4
      constructor
      · intro hb; exact hc (Or.inr hb)
      · intro hb; exact hc (Or.inl hb)
    · simpa using h5
  · rintro ⟨⟨c1, c2⟩, ⟨d1, d2⟩, ht, hb, ha⟩
    have n1 : ¬ (e.crop.x2 > hd ∨ e.crop.y2 > vd) := by omega
    have n2 : ¬ (e.display.x2 > hd ∨ e.display.y2 > vd) := by omega
    rw [if_neg (fun h => n1 h.2), if_neg (fun h => n2 h.2), if_neg (by simpa using ht),
      if_neg (by rintro ⟨a, b⟩; rcases hb with hb | hb <;> contradiction),
      if_neg (by simpa using ha)]

theorem validate_bufs_ext_one (H : Headers) (post_ext : adf_post_ext) (interface : adf_interface) :
    validate_bufs_ext H post_ext interface 1 0 =
      if buf_ext_rejected H (post_ext.bufs_ext 0)
        interface.current_mode.hdisplay interface.current_mode.vdisplay then -EINVAL else 0 := by
  simp [validate_bufs_ext]

theorem validate_bufs_ext_status (H : Headers) (post_ext : adf_post_ext)
    (interface : adf_interface) (k i : Nat) :
    validate_bufs_ext H post_ext interface k i = 0 ∨
      validate_bufs_ext H post_ext interface k i = -EINVAL := by
  induction k generalizing i with
  | zero => simp [validate_bufs_ext]
  | succ k ih =>
    simp only [validate_bufs_ext]
    split
    · exact Or.inr rfl
    · exact ih (i + 1)

/-- The status of `adf_img_validate_simple` on a post with one buffer, as one
conjunction of the checks it makes in order. -/
theorem adf_img_validate_simple_eq_zero_iff (H : Headers) (dev : adf_device) (cfg : adf_post)
    (driver_state : Option Nat) (hn : cfg.n_bufs = 1) :
    (adf_img_validate_simple H dev cfg driver_state).1 = 0 ↔
      cfg.custom_data_size =
        (H.sizeof_adf_post_ext + 1 * H.sizeof_adf_buffer_config_ext) % SIZE_T_MOD ∧
      ∃ overlay interface,
        (cfg.bufs 0).overlay_engine = some overlay ∧
        (cfg.bufs 0).format ∈ overlay.supported_formats ∧
        get_interface_attached_to_overlay dev (some overlay) = some interface ∧
        (cfg.bufs 0).w = interface.current_mode.hdisplay ∧
        (cfg.bufs 0).h = interface.current_mode.vdisplay ∧
        (cfg.bufs 0).n_planes = 1 ∧
        (cfg.bufs 0).offset 0 = 0 ∧
        buf_ext_rejected H (cfg.custom_data.bufs_ext 0)
          interface.current_mode.hdisplay interface.current_mode.vdisplay = false := by
  have hE := EINVAL_ne_zero
  unfold adf_img_validate_simple
  simp only [hn, one_ne_zero, if_false, ne_eq, not_true_eq_false, one_mul]
  by_cases hs : cfg.custom_data_size =
      (H.sizeof_adf_post_ext + H.sizeof_adf_buffer_config_ext) % SIZE_T_MOD
  · simp only [hs, not_true_eq_false, if_false, true_and]
    cases hov : (cfg.bufs 0).overlay_engine with
    | none => simp [hE]
    | some overlay =>
      simp only [Option.some.injEq, exists_and_left, exists_eq_left']
      by_cases hf : (cfg.bufs 0).format ∈ overlay.supported_formats
      · have hscan : ¬ scan_supported_formats (cfg.bufs 0).format overlay.supported_formats 0
            = overlay.n_supported_formats := by
          rw [scan_supported_formats_end]; exact fun h => h hf
        simp only [hscan, if_false, hf, true_and]
        cases hi : get_interface_attached_to_overlay dev (some overlay) with
        | none => simp [hE]
        | some interface =>
          simp only [Option.some.injEq, exists_eq_left']
          by_cases hw : (cfg.bufs 0).w = interface.current_mode.hdisplay
          · by_cases hh : (cfg.bufs 0).h = interface.current_mode.vdisplay
            · by_cases hp : (cfg.bufs 0).n_planes = 1
              · by_cases ho : (cfg.bufs 0).offset 0 = 0
                · simp only [hw, hh, hp, ho, not_true_eq_false, if_false, true_and,
                    validate_bufs_ext_one]
                  cases hr : buf_ext_rejected H (cfg.custom_data.bufs_ext 0)
                    interface.current_mode.hdisplay interface.current_mode.vdisplay <;>
                    simp [hE]
                · simp [hw, hh, hp, ho, hE]
              · simp [hw, hh, hp, hE]
            · simp [hw, hh, hE]
          · simp [hw, hE]
      · have hscan : scan_supported_formats (cfg.bufs 0).format overlay.supported_formats 0
            = overlay.n_supported_formats := by
          rw [scan_supported_formats_end]; exact hf
        simp [hscan, hf, hE]
  · simp [hs, hE]

theorem adf_img_validate_simple_status (H : Headers) (dev : adf_device) (cfg : adf_post)
    (driver_state : Option Nat) :
    (adf_img_validate_simple H dev cfg driver_state).1 = 0 ∨
      (adf_img_validate_simple H dev cfg driver_state).1 = -EINVAL := by
  unfold adf_img_validate_simple
  simp only []
  repeat' split
  all_goals first
    | exact Or.inl rfl
    | exact Or.inr rfl
    | exact validate_bufs_ext_status H _ _ _ _

theorem adf_img_validate_simple_state (H : Headers) (dev : adf_device) (cfg : adf_post)
    (driver_state : Option Nat) :
    (adf_img_validate_simple H dev cfg driver_state).2 = driver_state := by
  unfold adf_img_validate_simple
  simp only []
  repeat' split
  all_goals rfl

theorem attached_foldl_no_match (overlay : Option adf_overlay_engine)
    (l : List adf_attachment) (init : Option adf_interface)
    (h : ∀ e ∈ l, overlay_ptr_eq e.overlay_engine overlay = false) :
    l.foldl (attached_step overlay) init = init := by
  induction l generalizing init with
  | nil => rfl
  | cons e rest ih =>
    have he : overlay_ptr_eq e.overlay_engine overlay = false := h e (List.mem_cons_self _ _)
    have hrest : ∀ e' ∈ rest, overlay_ptr_eq e'.overlay_engine overlay = false :=
      fun e' he' => h e' (List.mem_cons_of_mem _ he')
    simp only [List.foldl_cons, attached_step, he, Bool.false_eq_true, if_false]
    exact ih init hrest

theorem attached_foldl_last_match (overlay : Option adf_overlay_engine)
    (pre post : List adf_attachment) (entry : adf_attachment) (init : Option adf_interface)
    (hm : overlay_ptr_eq entry.overlay_engine overlay = true)
    (h : ∀ e ∈ post, overlay_ptr_eq e.overlay_engine overlay = false) :
    (pre ++ entry :: post).foldl (attached_step overlay) init = entry.interface := by
  rw [List.foldl_append, List.foldl_cons, attached_foldl_no_match overlay post _ h]
  simp [attached_step, hm]

/-- C1: `adf_img_validate_simple` returns 0 on every well-formed single-buffer
post: one buffer, the payload size the code expects for one buffer, a non-null
overlay engine that lists the buffer's format, an interface attached to that
overlay (the one the lookup yields), buffer size equal to that interface's
mode, one plane at offset 0, crop and display equal to the full mode, no
transform, blending NONE or PREMULT and plane alpha 255. -/
theorem validate_simple_accepts_full_mode (H : Headers) (dev : adf_device) (cfg : adf_post)
    (driver_state : Option Nat) (overlay : adf_overlay_engine) (interface : adf_interface)
    (hn : cfg.n_bufs = 1)
    (hsize : cfg.custom_data_size =
      (H.sizeof_adf_post_ext + 1 * H.sizeof_adf_buffer_config_ext) % SIZE_T_MOD)
    (hov : (cfg.bufs 0).overlay_engine = some overlay)
    (hfmt : (cfg.bufs 0).format ∈ overlay.supported_formats)
    (hintf : get_interface_attached_to_overlay dev (some overlay) = some interface)
    (hw : (cfg.bufs 0).w = interface.current_mode.hdisplay)
    (hh : (cfg.bufs 0).h = interface.current_mode.vdisplay)
    (hplanes : (cfg.bufs 0).n_planes = 1)
    (hoffset : (cfg.bufs 0).offset 0 = 0)
    (hcrop : (cfg.custom_data.bufs_ext 0).crop =
      { x1 := 0, y1 := 0, x2 := interface.current_mode.hdisplay,
        y2 := interface.current_mode.vdisplay })
    (hdisplay : (cfg.custom_data.bufs_ext 0).display =
      { x1 := 0, y1 := 0, x2 := interface.current_mode.hdisplay,
        y2 := interface.current_mode.vdisplay })
    (htransform : (cfg.custom_data.bufs_ext 0).transform = H.ADF_BUFFER_TRANSFORM_NONE_EXT)
    (hblend : (cfg.custom_data.bufs_ext 0).blend_type = H.ADF_BUFFER_BLENDING_NONE_EXT ∨
      (cfg.custom_data.bufs_ext 0).blend_type = H.ADF_BUFFER_BLENDING_PREMULT_EXT)
    (halpha : (cfg.custom_data.bufs_ext 0).plane_alpha = 255) :
    (adf_img_validate_simple H dev cfg driver_state).1 = 0 := by
  rw [adf_img_validate_simple_eq_zero_iff H dev cfg driver_state hn]
  refine ⟨hsize, overlay, interface, hov, hfmt, hintf, hw, hh, hplanes, hoffset, ?_⟩
  rw [buf_ext_rejected_eq_false_iff, hcrop, hdisplay]
  exact ⟨⟨le_refl _, le_refl _⟩, ⟨le_refl _, le_refl _⟩, htransform, hblend, halpha⟩

theorem validate_simple_accepts_full_mode_witness :
    (adf_img_validate_simple linux_headers hd_device (hd_post full_hd full_hd) none).1 = 0 :=
  validate_simple_accepts_full_mode linux_headers hd_device (hd_post full_hd full_hd) none
    rgb_overlay hd_interface rfl (by decide) rfl (by decide) (by decide) rfl rfl rfl rfl rfl rfl
    rfl (Or.inr rfl) rfl

/-- C2: when `adf_img_validate_simple` returns 0 on a post with at least one
buffer, every policy condition holds: exactly one buffer, the payload size of
one buffer, a non-null overlay engine that lists the format, an interface
attached to it, buffer size equal to its mode, one plane at offset 0, crop and
display far corners within the mode, no transform, blending NONE or PREMULT,
plane alpha 0xff. -/
theorem validate_simple_accept_implies_policy (H : Headers) (dev : adf_device) (cfg : adf_post)
    (driver_state : Option Nat) (hn : cfg.n_bufs ≥ 1)
    (hacc : (adf_img_validate_simple H dev cfg driver_state).1 = 0) :
    cfg.n_bufs = 1 ∧
    cfg.custom_data_size =
      (H.sizeof_adf_post_ext + H.sizeof_adf_buffer_config_ext) % SIZE_T_MOD ∧
    ∃ overlay interface,
      (cfg.bufs 0).overlay_engine = some overlay ∧
      (cfg.bufs 0).format ∈ overlay.supported_formats ∧
      get_interface_attached_to_overlay dev (some overlay) = some interface ∧
      (cfg.bufs 0).w = interface.current_mode.hdisplay ∧
      (cfg.bufs 0).h = interface.current_mode.vdisplay ∧
      (cfg.bufs 0).n_planes = 1 ∧
      (cfg.bufs 0).offset 0 = 0 ∧
      (cfg.custom_data.bufs_ext 0).crop.x2 ≤ interface.current_mode.hdisplay ∧
      (cfg.custom_data.bufs_ext 0).crop.y2 ≤ interface.current_mode.vdisplay ∧
      (cfg.custom_data.bufs_ext 0).display.x2 ≤ interface.current_mode.hdisplay ∧
      (cfg.custom_data.bufs_ext 0).display.y2 ≤ interface.current_mode.vdisplay ∧
      (cfg.custom_data.bufs_ext 0).transform = H.ADF_BUFFER_TRANSFORM_NONE_EXT ∧
      ((cfg.custom_data.bufs_ext 0).blend_type = H.ADF_BUFFER_BLENDING_NONE_EXT ∨
        (cfg.custom_data.bufs_ext 0).blend_type = H.ADF_BUFFER_BLENDING_PREMULT_EXT) ∧
      (cfg.custom_data.bufs_ext 0).plane_alpha = 0xff := by
  have hone : cfg.n_bufs = 1 := by
    by_contra hne
    have h0 : cfg.n_bufs ≠ 0 := by omega
    have hrej : (adf_img_validate_simple H dev cfg driver_state).1 = -EINVAL := by
      unfold adf_img_validate_simple
      simp only [h0, if_false, hne, ne_eq, not_false_eq_true, if_true]
      split_ifs <;> rfl
    rw [hrej] at hacc
    exact EINVAL_ne_zero hacc
  obtain ⟨hsize, overlay, interface, hov, hfmt, hintf, hw, hh, hp, ho, hrej⟩ :=
    (adf_img_validate_simple_eq_zero_iff H dev cfg driver_state hone).1 hacc
  rw [buf_ext_rejected_eq_false_iff] at hrej
  obtain ⟨⟨c1, c2⟩, ⟨d1, d2⟩, ht, hb, ha⟩ := hrej
  rw [one_mul] at hsize
  exact ⟨hone, hsize, overlay, interface, hov, hfmt, hintf, hw, hh, hp, ho, c1, c2, d1, d2,
    ht, hb, ha⟩

theorem validate_simple_accept_implies_policy_witness :
    (hd_post quarter_hd full_hd).n_bufs = 1 ∧
    (hd_post quarter_hd full_hd).custom_data_size = (4 + 28) % SIZE_T_MOD ∧
    ∃ overlay interface,
      ((hd_post quarter_hd full_hd).bufs 0).overlay_engine = some overlay ∧
      ((hd_post quarter_hd full_hd).bufs 0).format ∈ overlay.supported_formats ∧
      get_interface_attached_to_overlay hd_device (some overlay) = some interface ∧
      ((hd_post quarter_hd full_hd).bufs 0).w = interface.current_mode.hdisplay ∧
      ((hd_post quarter_hd full_hd).bufs 0).h = interface.current_mode.vdisplay ∧
      ((hd_post quarter_hd full_hd).bufs 0).n_planes = 1 ∧
      ((hd_post quarter_hd full_hd).bufs 0).offset 0 = 0 ∧
      ((hd_post quarter_hd full_hd).custom_data.bufs_ext 0).crop.x2
        ≤ interface.current_mode.hdisplay ∧
      ((hd_post quarter_hd full_hd).custom_data.bufs_ext 0).crop.y2
        ≤ interface.current_mode.vdisplay ∧
      ((hd_post quarter_hd full_hd).custom_data.bufs_ext 0).display.x2
        ≤ interface.current_mode.hdisplay ∧
      ((hd_post quarter_hd full_hd).custom_data.bufs_ext 0).display.y2
        ≤ interface.current_mode.vdisplay ∧
      ((hd_post quarter_hd full_hd).custom_data.bufs_ext 0).transform = 0 ∧
      (((hd_post quarter_hd full_hd).custom_data.bufs_ext 0).blend_type = 0 ∨
        ((hd_post quarter_hd full_hd).custom_data.bufs_ext 0).blend_type = 1) ∧
      ((hd_post quarter_hd full_hd).custom_data.bufs_ext 0).plane_alpha = 0xff :=
  validate_simple_accept_implies_policy linux_headers hd_device (hd_post quarter_hd full_hd)
    none (by decide) (by decide)

/-- C3 (as stated, refuted): a one-buffer post that reaches the per-buffer
metadata checks with a crop origin `x1 = 5000` beyond `hdisplay = 1920` is not
rejected: the code returns 0, because it bounds only the far corner. -/
theorem validate_simple_origin_beyond_mode_accepted :
    (hd_post inverted_crop full_hd).n_bufs = 1 ∧
    ((hd_post inverted_crop full_hd).bufs 0).overlay_engine = some rgb_overlay ∧
    get_interface_attached_to_overlay hd_device (some rgb_overlay) = some hd_interface ∧
    ((hd_post inverted_crop full_hd).custom_data.bufs_ext 0).crop.x1
      > hd_interface.current_mode.hdisplay ∧
    (adf_img_validate_simple linux_headers hd_device (hd_post inverted_crop full_hd) none).1 = 0 ∧
    (adf_img_validate_simple linux_headers hd_device (hd_post inverted_crop full_hd) none).1
      ≠ -EINVAL := by
  decide

/-- C3 (amended): `adf_img_validate_simple` returns `-EINVAL` on every
one-buffer post with a non-null overlay engine and an attached interface whose
crop or display rectangle has its far corner beyond the mode: `x2 > hdisplay`
or `y2 > vdisplay`. -/
theorem validate_simple_rejects_far_corner_beyond_mode (H : Headers) (dev : adf_device)
    (cfg : adf_post) (driver_state : Option Nat) (overlay : adf_overlay_engine)
    (interface : adf_interface)
    (hn : cfg.n_bufs = 1)
    (hov : (cfg.bufs 0).overlay_engine = some overlay)
    (hintf : get_interface_attached_to_overlay dev (some overlay) = some interface)
    (hbeyond : (cfg.custom_data.bufs_ext 0).crop.x2 > interface.current_mode.hdisplay ∨
      (cfg.custom_data.bufs_ext 0).crop.y2 > interface.current_mode.vdisplay ∨
      (cfg.custom_data.bufs_ext 0).display.x2 > interface.current_mode.hdisplay ∨
      (cfg.custom_data.bufs_ext 0).display.y2 > interface.current_mode.vdisplay) :
    (adf_img_validate_simple H dev cfg driver_state).1 = -EINVAL := by
  rcases adf_img_validate_simple_status H dev cfg driver_state with h0 | hrej
  · exfalso
    obtain ⟨_, overlay', interface', hov', _, hintf', _, _, _, _, hr⟩ :=
      (adf_img_validate_simple_eq_zero_iff H dev cfg driver_state hn).1 h0
    rw [hov] at hov'
    cases hov'
    rw [hintf] at hintf'
    cases hintf'
    rw [buf_ext_rejected_eq_false_iff] at hr
    obtain ⟨⟨c1, c2⟩, ⟨d1, d2⟩, _⟩ := hr
    omega
  · exact hrej

theorem validate_simple_rejects_far_corner_beyond_mode_witness :
    (adf_img_validate_simple linux_headers hd_device
      (hd_post full_hd { x1 := 0, y1 := 0, x2 := 1921, y2 := 1080 }) none).1 = -EINVAL :=
  validate_simple_rejects_far_corner_beyond_mode linux_headers hd_device
    (hd_post full_hd { x1 := 0, y1 := 0, x2 := 1921, y2 := 1080 }) none rgb_overlay hd_interface
    rfl rfl (by decide) (by decide)

/-- C4: `adf_img_validate_simple` returns 0 on a pure downscale: a one-buffer
post that meets every other acceptance condition and whose crop and display
rectangles have `x2 < hdisplay` and `y2 < vdisplay`. -/
theorem validate_simple_accepts_downscale (H : Headers) (dev : adf_device) (cfg : adf_post)
    (driver_state : Option Nat) (overlay : adf_overlay_engine) (interface : adf_interface)
    (hn : cfg.n_bufs = 1)
    (hsize : cfg.custom_data_size =
      (H.sizeof_adf_post_ext + 1 * H.sizeof_adf_buffer_config_ext) % SIZE_T_MOD)
    (hov : (cfg.bufs 0).overlay_engine = some overlay)
    (hfmt : (cfg.bufs 0).format ∈ overlay.supported_formats)
    (hintf : get_interface_attached_to_overlay dev (some overlay) = some interface)
    (hw : (cfg.bufs 0).w = interface.current_mode.hdisplay)
    (hh : (cfg.bufs 0).h = interface.current_mode.vdisplay)
    (hplanes : (cfg.bufs 0).n_planes = 1)
    (hoffset : (cfg.bufs 0).offset 0 = 0)
    (htransform : (cfg.custom_data.bufs_ext 0).transform = H.ADF_BUFFER_TRANSFORM_NONE_EXT)
    (hblend : (cfg.custom_data.bufs_ext 0).blend_type = H.ADF_BUFFER_BLENDING_NONE_EXT ∨
      (cfg.custom_data.bufs_ext 0).blend_type = H.ADF_BUFFER_BLENDING_PREMULT_EXT)
    (halpha : (cfg.custom_data.bufs_ext 0).plane_alpha = 255)
    (hcx : (cfg.custom_data.bufs_ext 0).crop.x2 < interface.current_mode.hdisplay)
    (hcy : (cfg.custom_data.bufs_ext 0).crop.y2 < interface.current_mode.vdisplay)
    (hdx : (cfg.custom_data.bufs_ext 0).display.x2 < interface.current_mode.hdisplay)
    (hdy : (cfg.custom_data.bufs_ext 0).display.y2 < interface.current_mode.vdisplay) :
    (adf_img_validate_simple H dev cfg driver_state).1 = 0 := by
  rw [adf_img_validate_simple_eq_zero_iff H dev cfg driver_state hn]
  refine ⟨hsize, overlay, interface, hov, hfmt, hintf, hw, hh, hplanes, hoffset, ?_⟩
  rw [buf_ext_rejected_eq_false_iff]
  exact ⟨⟨le_of_lt hcx, le_of_lt hcy⟩, ⟨le_of_lt hdx, le_of_lt hdy⟩, htransform, hblend,
    halpha⟩

theorem validate_simple_accepts_downscale_witness :
    (adf_img_validate_simple linux_headers hd_device (hd_post quarter_hd quarter_hd) none).1
      = 0 :=
  validate_simple_accepts_downscale linux_headers hd_device (hd_post quarter_hd quarter_hd) none
    rgb_overlay hd_interface rfl (by decide) rfl (by decide) (by decide) rfl rfl rfl rfl rfl
    (Or.inr rfl) rfl (by decide) (by decide) (by decide) (by decide)

/-- C5: on a post with `n_bufs = 0` (the null flip), whatever the other fields
hold, `adf_img_validate_simple` returns 0 and leaves the `driver_state` cell
as it found it. -/
theorem validate_simple_null_flip (H : Headers) (dev : adf_device) (cfg : adf_post)
    (driver_state : Option Nat) (hn : cfg.n_bufs = 0) :
    adf_img_validate_simple H dev cfg driver_state = (0, driver_state) := by
  simp [adf_img_validate_simple, hn]

theorem validate_simple_null_flip_witness :
    adf_img_validate_simple linux_headers hd_device null_flip_post none = (0, none) ∧
    adf_img_validate_simple linux_headers hd_device null_flip_post (some 77) = (0, some 77) :=
  ⟨validate_simple_null_flip linux_headers hd_device null_flip_post none rfl,
   validate_simple_null_flip linux_headers hd_device null_flip_post (some 77) rfl⟩

/-- C6: for every input `adf_img_validate_simple` returns 0 or `-EINVAL`, and
the `driver_state` cell holds after the call what it held before, on the
rejecting paths as on the accepting ones. -/
theorem validate_simple_status_and_state (H : Headers) (dev : adf_device) (cfg : adf_post)
    (driver_state : Option Nat) :
    ((adf_img_validate_simple H dev cfg driver_state).1 = 0 ∨
      (adf_img_validate_simple H dev cfg driver_state).1 = -EINVAL) ∧
    (adf_img_validate_simple H dev cfg driver_state).2 = driver_state :=
  ⟨adf_img_validate_simple_status H dev cfg driver_state,
   adf_img_validate_simple_state H dev cfg driver_state⟩

/-- C7: `get_interface_attached_to_overlay` returns the interface of the last
entry of the attachment list whose overlay engine is the given one, NULL when
no entry has it, and `ifaceB` for the list `overlay->ifaceA`, `overlay->ifaceB`. -/
theorem get_interface_attached_last_wins (dev : adf_device)
    (overlay : Option adf_overlay_engine) :
    (∀ (pre post : List adf_attachment) (entry : adf_attachment),
      dev.attached = pre ++ entry :: post →
      overlay_ptr_eq entry.overlay_engine overlay = true →
      (∀ e ∈ post, overlay_ptr_eq e.overlay_engine overlay = false) →
      get_interface_attached_to_overlay dev overlay = entry.interface) ∧
    ((∀ e ∈ dev.attached, overlay_ptr_eq e.overlay_engine overlay = false) →
      get_interface_attached_to_overlay dev overlay = none) ∧
    (∀ ifaceA ifaceB : Option adf_interface,
      dev.attached = [{ interface := ifaceA, overlay_engine := overlay },
                      { interface := ifaceB, overlay_engine := overlay }] →
      get_interface_attached_to_overlay dev overlay = ifaceB) := by
  refine ⟨?_, ?_, ?_⟩
  · intro pre post entry hl hm hpost
    unfold get_interface_attached_to_overlay
    rw [hl]
    exact attached_foldl_last_match overlay pre post entry none hm hpost
  · intro hnone
    unfold get_interface_attached_to_overlay
    exact attached_foldl_no_match overlay dev.attached none hnone
  · intro ifaceA ifaceB hl
    unfold get_interface_attached_to_overlay
    rw [hl]
    simp [attached_step, overlay_ptr_eq]

theorem get_interface_attached_last_wins_witness :
    get_interface_attached_to_overlay hd_device (some rgb_overlay) = some hd_interface ∧
    get_interface_attached_to_overlay hd_device none = none :=
  ⟨(get_interface_attached_last_wins hd_device (some rgb_overlay)).2.2
      (some small_interface) (some hd_interface) rfl,
   (get_interface_attached_last_wins hd_device none).2.1 (by decide)⟩

/-! ## Properties of the entry point `validate` -/

/-- C8 (the code at the failing input): with two buffer configs of which the
second cannot be copied, `validate` imports the handle of the first buffer,
returns `-EFAULT` through `err_out`, and releases nothing: one successful
`dma_buf_get`, no `dma_buf_put`. -/
theorem validate_leaks_on_config_fault :
    validate linux_headers half_mapped_caller generous_kernel simple_ops hd_device 0x4000 =
      (-EFAULT,
        [Event.kmalloc Alloc.post_ext true, Event.kmalloc Alloc.bufs true,
         Event.dma_buf_get 3 live_dma_buf,
         Event.kfree Alloc.post_ext true, Event.kfree Alloc.intfs false,
         Event.kfree Alloc.bufs true]) ∧
    imported (validate linux_headers half_mapped_caller generous_kernel simple_ops
      hd_device 0x4000).2 = [live_dma_buf] ∧
    released (validate linux_headers half_mapped_caller generous_kernel simple_ops
      hd_device 0x4000).2 = [] := by
  decide

/-- C9: when the request header names more than `ADF_MAX_BUFFERS` buffers or
more than `ADF_MAX_INTERFACES` interfaces, `validate` returns `-EINVAL` and its
run holds no `dma_buf_get`, no allocation and no call of the driver's validate
capability. -/
theorem validate_rejects_oversized_counts (H : Headers) (um : UserMemory) (kern : Kernel)
    (ops : adf_device_ops) (dev : adf_device) (arg : Nat) (data : adf_validate_config_ext)
    (hdata : um.validate_config arg = some data)
    (hbig : data.n_bufs > H.ADF_MAX_BUFFERS ∨ data.n_interfaces > H.ADF_MAX_INTERFACES) :
    (validate H um kern ops dev arg).1 = -EINVAL ∧
    ∀ e ∈ (validate H um kern ops dev arg).2, e.acquires = false := by
  unfold validate
  simp only [hdata]
  by_cases hi : data.n_interfaces > H.ADF_MAX_INTERFACES
  · simp [hi, err_out, Event.acquires]
  · have hb : data.n_bufs > H.ADF_MAX_BUFFERS := by
      rcases hbig with h | h
      · exact h
      · exact absurd h hi
    simp [hi, hb, err_out, Event.acquires]

theorem validate_rejects_oversized_counts_witness :
    (validate linux_headers greedy_caller generous_kernel simple_ops hd_device 0x4000).1
      = -EINVAL ∧
    ∀ e ∈ (validate linux_headers greedy_caller generous_kernel simple_ops hd_device 0x4000).2,
      e.acquires = false :=
  validate_rejects_oversized_counts linux_headers greedy_caller generous_kernel simple_ops
    hd_device 0x4000
    { n_interfaces := 0, interfaces := 0, n_bufs := 57, bufs := 0x5000, post_ext := 0x6000 }
    rfl (Or.inl (by decide))

/-- C10 (the code at the failing input): for a null flip on a driver that
validates with `adf_img_validate_simple` and provides `state_free`, the driver
succeeds without storing a token, and `validate` still calls `state_free`, on
the never-written local `driver_state`. -/
theorem validate_frees_unwritten_state :
    (adf_img_validate_simple linux_headers hd_device
      { n_bufs := 0, bufs := fun _ => zero_buffer, custom_data_size := 4,
        custom_data := caller_post_ext } none) = (0, none) ∧
    validate linux_headers null_flip_caller generous_kernel simple_ops_with_state_free
        hd_device 0x4000 =
      (0,
        [Event.kmalloc Alloc.post_ext true, Event.ops_validate, Event.ops_state_free none,
         Event.kfree Alloc.post_ext true, Event.kfree Alloc.intfs false,
         Event.kfree Alloc.bufs false]) := by
  decide

/-! ### Bookkeeping of imported handles -/

theorem imported_append (a b : List Event) : imported (a ++ b) = imported a ++ imported b := by
  induction a with
  | nil => rfl
  | cons e rest ih =>
    cases e with
    | dma_buf_get fd p =>
      by_cases hp : IS_ERR_OR_NULL p = true <;> simp [imported, ih, hp]
    | _ => simp [imported, ih]

theorem released_append (a b : List Event) : released (a ++ b) = released a ++ released b := by
  induction a with
  | nil => rfl
  | cons e rest ih => cases e <;> simp [released, ih]

theorem state_freed_append (a b : List Event) :
    state_freed (a ++ b) = state_freed a ++ state_freed b := by
  induction a with
  | nil => rfl
  | cons e rest ih => cases e <;> simp [state_freed, ih]

theorem store_same {α : Type} (a : Nat → α) (i : Nat) (v : α) : store a i v i = v := by
  simp [store]

theorem store_other {α : Type} (a : Nat → α) (i k : Nat) (v : α) (h : k ≠ i) :
    store a i v k = a k := by
  simp [store, h]

theorem imported_put_planes (buf : adf_buffer) (k j : Nat) :
    imported (put_planes buf k j) = [] := by
  induction k generalizing j with
  | zero => rfl
  | succ k ih =>
    simp only [put_planes, imported_append, ih, List.append_nil]
    split <;> rfl

theorem state_freed_put_planes (buf : adf_buffer) (k j : Nat) :
    state_freed (put_planes buf k j) = [] := by
  induction k generalizing j with
  | zero => rfl
  | succ k ih =>
    simp only [put_planes, state_freed_append, ih, List.append_nil]
    split <;> rfl

theorem imported_put_buffers (H : Headers) (bufs : Nat → adf_buffer) (k i : Nat) :
    imported (put_buffers H bufs k i) = [] := by
  induction k generalizing i with
  | zero => rfl
  | succ k ih => simp [put_buffers, imported_append, ih, imported_put_planes]

theorem state_freed_put_buffers (H : Headers) (bufs : Nat → adf_buffer) (k i : Nat) :
    state_freed (put_buffers H bufs k i) = [] := by
  induction k generalizing i with
  | zero => rfl
  | succ k ih => simp [put_buffers, state_freed_append, ih, state_freed_put_planes]

theorem put_planes_zero (buf : adf_buffer) (k j : Nat)
    (h : ∀ m, j ≤ m → buf.dma_bufs m = 0) : put_planes buf k j = [] := by
  induction k generalizing j with
  | zero => rfl
  | succ k ih =>
    have hj : buf.dma_bufs j = 0 := h j (le_refl j)
    have hrest : put_planes buf k (j + 1) = [] := ih (j + 1) (fun m hm => h m (by omega))
    simp [put_planes, hj, hrest]

theorem put_planes_split (buf : adf_buffer) (a b j : Nat) :
    put_planes buf (a + b) j = put_planes buf a j ++ put_planes buf b (j + a) := by
  induction a generalizing j with
  | zero => simp [put_planes]
  | succ a ih =>
    have h1 : a + 1 + b = (a + b) + 1 := by omega
    have h2 : j + (a + 1) = j + 1 + a := by omega
    rw [h1]
    simp only [put_planes, ih (j + 1), h2, List.append_assoc]

theorem put_planes_congr (b1 b2 : adf_buffer) (k j : Nat)
    (h : ∀ m, j ≤ m → m < j + k → b1.dma_bufs m = b2.dma_bufs m) :
    put_planes b1 k j = put_planes b2 k j := by
  induction k generalizing j with
  | zero => rfl
  | succ k ih =>
    have hj : b1.dma_bufs j = b2.dma_bufs j := h j (le_refl j) (by omega)
    have hrest := ih (j + 1) (fun m hm1 hm2 => h m (by omega) (by omega))
    simp only [put_planes, hj, hrest]

theorem put_buffers_zero (H : Headers) (bufs : Nat → adf_buffer) (k i : Nat)
    (h : ∀ m, i ≤ m → ∀ j, (bufs m).dma_bufs j = 0) : put_buffers H bufs k i = [] := by
  induction k generalizing i with
  | zero => rfl
  | succ k ih =>
    have h1 : put_planes (bufs i) H.ADF_MAX_PLANES 0 = [] :=
      put_planes_zero (bufs i) _ 0 (fun m _ => h i (le_refl i) m)
    have h2 : put_buffers H bufs k (i + 1) = [] := ih (i + 1) (fun m hm => h m (by omega))
    simp [put_buffers, h1, h2]

theorem put_buffers_congr (H : Headers) (b1 b2 : Nat → adf_buffer) (k i : Nat)
    (h : ∀ m, i ≤ m → m < i + k → b1 m = b2 m) :
    put_buffers H b1 k i = put_buffers H b2 k i := by
  induction k generalizing i with
  | zero => rfl
  | succ k ih =>
    have hi : b1 i = b2 i := h i (le_refl i) (by omega)
    have hrest := ih (i + 1) (fun m hm1 hm2 => h m (by omega) (by omega))
    simp only [put_buffers, hi, hrest]

theorem released_put_planes_cons (buf : adf_buffer) (k j : Nat) (h : buf.dma_bufs j ≠ 0) :
    released (put_planes buf (k + 1) j) = buf.dma_bufs j :: released (put_planes buf k (j + 1)) := by
  simp [put_planes, h, released]

/-- The plane loop appends only import events, and the handles it imported are
the non-NULL entries it leaves in the planes it visited. -/
theorem import_planes_spec (kern : Kernel) (config : adf_buffer_config) (i : Nat) :
    ∀ (k j : Nat) (buf : adf_buffer) (tr : List Event),
      (∀ m, j ≤ m → buf.dma_bufs m = 0) →
      ∃ evs, (import_planes kern config i k j buf tr).2.2 = tr ++ evs ∧
        released evs = [] ∧ state_freed evs = [] ∧
        imported evs =
          released (put_planes (import_planes kern config i k j buf tr).2.1 k j) ∧
        (∀ m, m < j →
          (import_planes kern config i k j buf tr).2.1.dma_bufs m = buf.dma_bufs m) ∧
        (∀ m, j + k ≤ m → (import_planes kern config i k j buf tr).2.1.dma_bufs m = 0) := by
  intro k
  induction k with
  | zero =>
    intro j buf tr h
    refine ⟨[], by simp [import_planes], rfl, rfl, by simp [import_planes, put_planes, imported, released],
      fun m _ => rfl, fun m hm => ?_⟩
    simpa [import_planes] using h m (by omega)
  | succ k ih =>
    intro j buf tr h
    obtain ⟨p, hpdef⟩ : ∃ p, p = kern.dma_buf_get i j (config.fd j) := ⟨_, rfl⟩
    by_cases hp : IS_ERR_OR_NULL p = true
    · have hres : import_planes kern config i (k + 1) j buf tr =
          (some (long_to_int (PTR_ERR p)),
            { buf with dma_bufs := store (store buf.dma_bufs j p) j 0 },
            tr ++ [Event.dma_buf_get (config.fd j) p]) := by
        simp [import_planes, store_same, ← hpdef, hp]
      rw [hres]
      refine ⟨[Event.dma_buf_get (config.fd j) p], rfl, rfl, rfl, ?_, ?_, ?_⟩
      · have hz : put_planes { buf with dma_bufs := store (store buf.dma_bufs j p) j 0 }
            (k + 1) j = [] := by
          apply put_planes_zero
          intro m hm
          by_cases hmj : m = j
          · simp [store, hmj]
          · simp only [store, hmj, if_false]
            exact h m hm
        rw [hz]
        simp [imported, hp, released]
      · intro m hm
        have hmj : m ≠ j := by omega
        simp [store, hmj]
      · intro m hm
        have hmj : m ≠ j := by omega
        simp only [store, hmj, if_false]
        exact h m (by omega)
    · have hres : import_planes kern config i (k + 1) j buf tr =
          import_planes kern config i k (j + 1)
            { buf with dma_bufs := store buf.dma_bufs j p,
                       offset := store buf.offset j (config.offset j),
                       pitch := store buf.pitch j (config.pitch j) }
            (tr ++ [Event.dma_buf_get (config.fd j) p]) := by
        simp [import_planes, store_same, ← hpdef, hp]
      rw [hres]
      have hpre : ∀ m, j + 1 ≤ m → store buf.dma_bufs j p m = 0 := by
        intro m hm
        have hmj : m ≠ j := by omega
        simp only [store, hmj, if_false]
        exact h m (by omega)
      obtain ⟨evs, htr, hrel, hsf, himp, hlow, hhigh⟩ :=
        ih (j + 1)
          { buf with dma_bufs := store buf.dma_bufs j p,
                     offset := store buf.offset j (config.offset j),
                     pitch := store buf.pitch j (config.pitch j) }
          (tr ++ [Event.dma_buf_get (config.fd j) p]) hpre
      refine ⟨Event.dma_buf_get (config.fd j) p :: evs, ?_, ?_, ?_, ?_, ?_, ?_⟩
      · rw [htr]; simp
      · simpa [released] using hrel
      · simpa [state_freed] using hsf
      · have hj := hlow j (by omega)
        simp only [store_same] at hj
        have hne : p ≠ 0 := by
          intro h0
          apply hp
          simp [IS_ERR_OR_NULL, h0]
        rw [released_put_planes_cons _ _ _ (by rw [hj]; exact hne), hj]
        simp [imported, hp, himp]
      · intro m hm
        have hmj : m ≠ j := by omega
        have := hlow m (by omega)
        simpa [store, hmj] using this
      · intro m hm
        exact hhigh m (by omega)

theorem store_store {α : Type} (a : Nat → α) (i : Nat) (v w : α) :
    store (store a i v) i w = store a i w := by
  funext k
  by_cases hk : k = i <;> simp [store, hk]

/-! ### The buffer loop, one exit at a time -/

theorem import_buffers_fault (H : Headers) (um : UserMemory) (kern : Kernel) (dev : adf_device)
    (data : adf_validate_config_ext) (k i : Nat) (bufs : Nat → adf_buffer) (tr : List Event)
    (hc : um.buffer_config data.bufs i = none) :
    import_buffers H um kern dev data (k + 1) i bufs tr = (Jump.err_out (-EFAULT), bufs, tr) := by
  simp [import_buffers, hc]

theorem import_buffers_too_many_planes (H : Headers) (um : UserMemory) (kern : Kernel)
    (dev : adf_device) (data : adf_validate_config_ext) (k i : Nat) (bufs : Nat → adf_buffer)
    (tr : List Event) (config : adf_buffer_config)
    (hc : um.buffer_config data.bufs i = some config)
    (hpl : config.n_planes > H.ADF_MAX_PLANES) :
    import_buffers H um kern dev data (k + 1) i bufs tr =
      (Jump.err_import (-EINVAL), store bufs i zero_buffer, tr) := by
  simp [import_buffers, hc, hpl]

theorem import_buffers_no_overlay (H : Headers) (um : UserMemory) (kern : Kernel)
    (dev : adf_device) (data : adf_validate_config_ext) (k i : Nat) (bufs : Nat → adf_buffer)
    (tr : List Event) (config : adf_buffer_config)
    (hc : um.buffer_config data.bufs i = some config)
    (hpl : ¬ config.n_planes > H.ADF_MAX_PLANES)
    (hov : dev.overlay_engines config.overlay_engine = none) :
    import_buffers H um kern dev data (k + 1) i bufs tr =
      (Jump.err_import (-ENOENT), store bufs i zero_buffer, tr) := by
  simp only [import_buffers, hc, hpl, if_false, store_same, hov, if_true, store_store]
  rfl

theorem import_buffers_plane_failed (H : Headers) (um : UserMemory) (kern : Kernel)
    (dev : adf_device) (data : adf_validate_config_ext) (k i : Nat) (bufs : Nat → adf_buffer)
    (tr : List Event) (config : adf_buffer_config) (overlay : adf_overlay_engine)
    (err : Int) (buf : adf_buffer) (tr' : List Event)
    (hc : um.buffer_config data.bufs i = some config)
    (hpl : ¬ config.n_planes > H.ADF_MAX_PLANES)
    (hov : dev.overlay_engines config.overlay_engine = some overlay)
    (hres : import_planes kern config i config.n_planes 0 (fresh_buffer overlay config) tr =
      (some err, buf, tr')) :
    import_buffers H um kern dev data (k + 1) i bufs tr =
      (Jump.err_import err, store bufs i buf, tr') := by
  have hres' := hres
  simp only [fresh_buffer] at hres'
  simp only [import_buffers, hc, hpl, if_false, store_same, hov, store_store, hres']
  simp

theorem import_buffers_next (H : Headers) (um : UserMemory) (kern : Kernel)
    (dev : adf_device) (data : adf_validate_config_ext) (k i : Nat) (bufs : Nat → adf_buffer)
    (tr : List Event) (config : adf_buffer_config) (overlay : adf_overlay_engine)
    (buf : adf_buffer) (tr' : List Event)
    (hc : um.buffer_config data.bufs i = some config)
    (hpl : ¬ config.n_planes > H.ADF_MAX_PLANES)
    (hov : dev.overlay_engines config.overlay_engine = some overlay)
    (hres : import_planes kern config i config.n_planes 0 (fresh_buffer overlay config) tr =
      (none, buf, tr')) :
    import_buffers H um kern dev data (k + 1) i bufs tr =
      import_buffers H um kern dev data k (i + 1)
        (store bufs i { buf with n_planes := config.n_planes }) tr' := by
  have hres' := hres
  simp only [fresh_buffer] at hres'
  simp only [import_buffers, hc, hpl, if_false, store_same, hov, store_store, hres']
  simp

theorem fresh_buffer_dma_bufs (overlay : adf_overlay_engine) (config : adf_buffer_config)
    (m : Nat) : (fresh_buffer overlay config).dma_bufs m = 0 := rfl

/-- The buffer loop appends only import events; unless it leaves through the
faulting copy of a buffer config, the handles it imported are the non-NULL
entries of the buffers it visited. -/
theorem import_buffers_spec (H : Headers) (um : UserMemory) (kern : Kernel) (dev : adf_device)
    (data : adf_validate_config_ext) :
    ∀ (k i : Nat) (bufs : Nat → adf_buffer) (tr : List Event),
      (∀ m, i ≤ m → ∀ j, (bufs m).dma_bufs j = 0) →
      ∃ evs, (import_buffers H um kern dev data k i bufs tr).2.2 = tr ++ evs ∧
        released evs = [] ∧ state_freed evs = [] ∧
        (∀ m, m < i → (import_buffers H um kern dev data k i bufs tr).2.1 m = bufs m) ∧
        ((∀ e, (import_buffers H um kern dev data k i bufs tr).1 ≠ Jump.err_out e) →
          imported evs =
            released (put_buffers H (import_buffers H um kern dev data k i bufs tr).2.1 k i)) := by
  intro k
  induction k with
  | zero =>
    intro i bufs tr h
    exact ⟨[], by simp [import_buffers], rfl, rfl, fun m _ => rfl,
      fun _ => by simp [put_buffers, imported, released]⟩
  | succ k ih =>
    intro i bufs tr h
    have hzero : ∀ (b : adf_buffer), (∀ j, b.dma_bufs j = 0) →
        put_buffers H (store bufs i b) (k + 1) i = [] := by
      intro b hb
      apply put_buffers_zero
      intro m hm j
      by_cases hmi : m = i
      · simp [store, hmi, hb j]
      · simp only [store, hmi, if_false]
        exact h m hm j
    have hlow : ∀ (b : adf_buffer) (m : Nat), m < i → store bufs i b m = bufs m := by
      intro b m hm
      exact store_other bufs i m b (by omega)
    cases hc : um.buffer_config data.bufs i with
    | none =>
      rw [import_buffers_fault H um kern dev data k i bufs tr hc]
      refine ⟨[], by simp, rfl, rfl, fun m _ => rfl, fun hne => ?_⟩
      exact absurd rfl (hne (-EFAULT))
    | some config =>
      by_cases hpl : config.n_planes > H.ADF_MAX_PLANES
      · rw [import_buffers_too_many_planes H um kern dev data k i bufs tr config hc hpl]
        refine ⟨[], by simp, rfl, rfl, hlow zero_buffer, fun _ => ?_⟩
        simp only [hzero zero_buffer (fun _ => rfl)]
        rfl
      · cases hov : dev.overlay_engines config.overlay_engine with
        | none =>
          rw [import_buffers_no_overlay H um kern dev data k i bufs tr config hc hpl hov]
          refine ⟨[], by simp, rfl, rfl, hlow zero_buffer, fun _ => ?_⟩
          simp only [hzero zero_buffer (fun _ => rfl)]
          rfl
        | some overlay =>
          obtain ⟨evsP, hPtr, hPrel, hPsf, hPimp, _, hPhigh⟩ :=
            import_planes_spec kern config i config.n_planes 0 (fresh_buffer overlay config) tr
              (fun m _ => fresh_buffer_dma_bufs overlay config m)
          rcases hres : import_planes kern config i config.n_planes 0
            (fresh_buffer overlay config) tr with ⟨e, bufP, trP⟩
          rw [hres] at hPtr hPimp hPhigh
          simp only at hPtr hPimp hPhigh
          have hplanes : released (put_planes bufP H.ADF_MAX_PLANES 0) = imported evsP := by
            have hsplit : H.ADF_MAX_PLANES =
                config.n_planes + (H.ADF_MAX_PLANES - config.n_planes) := by omega
            rw [hsplit, put_planes_split, released_append, ← hPimp,
              put_planes_zero bufP _ (0 + config.n_planes) (fun m hm => hPhigh m hm)]
            simp [released]
          cases e with
          | some err =>
            rw [import_buffers_plane_failed H um kern dev data k i bufs tr config overlay err
              bufP trP hc hpl hov hres]
            refine ⟨evsP, hPtr, hPrel, hPsf, hlow bufP, fun _ => ?_⟩
            have hrest : put_buffers H (store bufs i bufP) k (i + 1) = [] := by
              apply put_buffers_zero
              intro m hm j
              rw [store_other bufs i m bufP (by omega)]
              exact h m (by omega) j
            simp only [put_buffers, store_same, released_append, hplanes, hrest]
            simp [released]
          | none =>
            rw [import_buffers_next H um kern dev data k i bufs tr config overlay
              bufP trP hc hpl hov hres]
            have hpre : ∀ m, i + 1 ≤ m → ∀ j,
                (store bufs i { bufP with n_planes := config.n_planes } m).dma_bufs j = 0 := by
              intro m hm j
              rw [store_other bufs i m _ (by omega)]
              exact h m (by omega) j
            obtain ⟨evs, htr, hrel, hsf, hsame, himp⟩ :=
              ih (i + 1) (store bufs i { bufP with n_planes := config.n_planes }) trP hpre
            refine ⟨evsP ++ evs, ?_, ?_, ?_, ?_, ?_⟩
            · rw [htr, hPtr]; simp
            · simp [released_append, hPrel, hrel]
            · simp [state_freed_append, hPsf, hsf]
            · intro m hm
              rw [hsame m (by omega)]
              exact store_other bufs i m _ (by omega)
            · intro hne
              have hi := hsame i (by omega)
              rw [store_same] at hi
              have hcg : put_planes { bufP with n_planes := config.n_planes } H.ADF_MAX_PLANES 0
                  = put_planes bufP H.ADF_MAX_PLANES 0 :=
                put_planes_congr _ _ _ _ (fun _ _ _ => rfl)
              simp only [put_buffers, released_append, imported_append, himp hne, hi, hcg,
                hplanes]

theorem import_buffers_no_fault (H : Headers) (um : UserMemory) (kern : Kernel)
    (dev : adf_device) (data : adf_validate_config_ext) :
    ∀ (k i : Nat) (bufs : Nat → adf_buffer) (tr : List Event),
      (∀ m, i ≤ m → m < i + k → um.buffer_config data.bufs m ≠ none) →
      ∀ e, (import_buffers H um kern dev data k i bufs tr).1 ≠ Jump.err_out e := by
  intro k
  induction k with
  | zero =>
    intro i bufs tr _ e
    simp [import_buffers]
  | succ k ih =>
    intro i bufs tr h e
    cases hc : um.buffer_config data.bufs i with
    | none => exact absurd hc (h i (le_refl i) (by omega))
    | some config =>
      by_cases hpl : config.n_planes > H.ADF_MAX_PLANES
      · rw [import_buffers_too_many_planes H um kern dev data k i bufs tr config hc hpl]
        simp
      · cases hov : dev.overlay_engines config.overlay_engine with
        | none =>
          rw [import_buffers_no_overlay H um kern dev data k i bufs tr config hc hpl hov]
          simp
        | some overlay =>
          rcases hres : import_planes kern config i config.n_planes 0
            (fresh_buffer overlay config) tr with ⟨r, bufP, trP⟩
          cases r with
          | some err =>
            rw [import_buffers_plane_failed H um kern dev data k i bufs tr config overlay err
              bufP trP hc hpl hov hres]
            simp
          | none =>
            rw [import_buffers_next H um kern dev data k i bufs tr config overlay
              bufP trP hc hpl hov hres]
            exact ih (i + 1) _ _ (fun m hm1 hm2 => h m (by omega) (by omega)) e

theorem err_out_projections (a b c : Bool) (err : Int) (tr : List Event) :
    (err_out a b c err tr).1 = err ∧
    imported (err_out a b c err tr).2 = imported tr ∧
    released (err_out a b c err tr).2 = released tr ∧
    state_freed (err_out a b c err tr).2 = state_freed tr := by
  simp [err_out, imported_append, released_append, state_freed_append, imported, released,
    state_freed]

theorem released_put_buffers_only (H : Headers) (bufs : Nat → adf_buffer) (k i : Nat)
    (tr : List Event) :
    imported (tr ++ put_buffers H bufs k i) = imported tr ∧
    state_freed (tr ++ put_buffers H bufs k i) = state_freed tr := by
  simp [imported_append, state_freed_append, imported_put_buffers, state_freed_put_buffers]

theorem err_import_projections (H : Headers) (data : adf_validate_config_ext)
    (bufs : Nat → adf_buffer) (a b c : Bool) (err : Int) (tr : List Event) :
    (err_import H data bufs a b c err tr).1 = err ∧
    imported (err_import H data bufs a b c err tr).2 = imported tr ∧
    released (err_import H data bufs a b c err tr).2 =
      released tr ++ released (put_buffers H bufs data.n_bufs 0) ∧
    state_freed (err_import H data bufs a b c err tr).2 = state_freed tr := by
  unfold err_import
  obtain ⟨h1, h2, h3, h4⟩ := err_out_projections a b c err (tr ++ put_buffers H bufs data.n_bufs 0)
  refine ⟨h1, ?_, ?_, ?_⟩
  · rw [h2]; exact (released_put_buffers_only H bufs _ _ tr).1
  · rw [h3, released_append]
  · rw [h4]; exact (released_put_buffers_only H bufs _ _ tr).2

/-- What `validate_post` adds to the run: the status is the driver's, every
handle still held in `bufs` is released, and `state_free` is called exactly
when the driver returned 0 and the callback exists, on whatever the local
`driver_state` then holds. -/
theorem validate_post_spec (H : Headers) (ops : adf_device_ops) (dev : adf_device)
    (data : adf_validate_config_ext) (post_ext : adf_post_ext) (post_ext_size : Nat)
    (intfs bufs_allocated : Bool) (bufs : Nat → adf_buffer) (tr : List Event) :
    (validate_post H ops dev data post_ext post_ext_size intfs bufs_allocated bufs tr).1 =
      (ops.validate dev (post_cfg data post_ext post_ext_size bufs) none).1 ∧
    imported (validate_post H ops dev data post_ext post_ext_size intfs bufs_allocated bufs tr).2
      = imported tr ∧
    released (validate_post H ops dev data post_ext post_ext_size intfs bufs_allocated bufs tr).2
      = released tr ++ released (put_buffers H bufs data.n_bufs 0) ∧
    state_freed
        (validate_post H ops dev data post_ext post_ext_size intfs bufs_allocated bufs tr).2 =
      state_freed tr ++
        (if (ops.validate dev (post_cfg data post_ext post_ext_size bufs) none).1 = 0 ∧
            ops.state_free = true then
          [(ops.validate dev (post_cfg data post_ext post_ext_size bufs) none).2]
        else []) := by
  unfold validate_post
  simp only []
  split
  · rename_i herr
    obtain ⟨h1, h2, h3, h4⟩ := err_import_projections H data bufs true intfs bufs_allocated
      (ops.validate dev (post_cfg data post_ext post_ext_size bufs) none).1 (tr ++ [Event.ops_validate])
    refine ⟨h1, ?_, ?_, ?_⟩
    · rw [h2]; simp [imported_append, imported]
    · rw [h3]; simp [released_append, released]
    · rw [h4]; simp [state_freed_append, state_freed, herr]
  · rename_i herr
    have herr0 : (ops.validate dev (post_cfg data post_ext post_ext_size bufs) none).1 = 0 := by
      by_contra hc; exact herr hc
    cases hsf : ops.state_free
    · obtain ⟨h1, h2, h3, h4⟩ := err_import_projections H data bufs true intfs bufs_allocated
        (ops.validate dev (post_cfg data post_ext post_ext_size bufs) none).1
        (tr ++ [Event.ops_validate])
      simp only [Bool.false_eq_true, if_false, and_false]
      refine ⟨h1, ?_, ?_, ?_⟩
      · rw [h2]; simp [imported_append, imported]
      · rw [h3]; simp [released_append, released]
      · rw [h4]; simp [state_freed_append, state_freed]
    · obtain ⟨h1, h2, h3, h4⟩ := err_import_projections H data bufs true intfs bufs_allocated
        (ops.validate dev (post_cfg data post_ext post_ext_size bufs) none).1
        (tr ++ [Event.ops_validate] ++
          [Event.ops_state_free (ops.validate dev
            (post_cfg data post_ext post_ext_size bufs) none).2])
      have hcond : (ops.validate dev (post_cfg data post_ext post_ext_size bufs) none).1 = 0 ∧
          true = true := ⟨herr0, rfl⟩
      simp only [if_true, if_pos hcond]
      refine ⟨h1, ?_, ?_, ?_⟩
      · rw [h2]; simp [imported_append, imported]
      · rw [h3]; simp [released_append, released]
      · rw [h4]; simp [state_freed_append, state_freed, herr0]

theorem validate_bufs_balance (H : Headers) (um : UserMemory) (kern : Kernel)
    (ops : adf_device_ops) (dev : adf_device) (data : adf_validate_config_ext)
    (post_ext : adf_post_ext) (post_ext_size : Nat) (intfs : Bool) (tr : List Event)
    (hfault : ∀ m, m < data.n_bufs → um.buffer_config data.bufs m ≠ none) :
    ∃ held,
      imported (validate_bufs H um kern ops dev data post_ext post_ext_size intfs tr).2
        = imported tr ++ held ∧
      released (validate_bufs H um kern ops dev data post_ext post_ext_size intfs tr).2
        = released tr ++ held := by
  unfold validate_bufs
  simp only []
  obtain ⟨tr', htr', hi', hr'⟩ : ∃ tr', tr' =
      (if data.n_bufs ≠ 0 then
        tr ++ [Event.kmalloc Alloc.bufs (decide (data.n_bufs ≠ 0) && kern.kmalloc_ok Alloc.bufs)]
       else tr) ∧ imported tr' = imported tr ∧ released tr' = released tr := by
    refine ⟨_, rfl, ?_, ?_⟩ <;> split <;> simp [imported_append, released_append, imported, released]
  rw [← htr']
  split
  · obtain ⟨_, h2, h3, _⟩ := err_out_projections true intfs false (-ENOMEM) tr'
    exact ⟨[], by rw [h2, hi']; simp, by rw [h3, hr']; simp⟩
  · obtain ⟨evs, hev, hrel, _, _, himp⟩ :=
      import_buffers_spec H um kern dev data data.n_bufs 0 (fun _ => zero_buffer) tr'
        (fun _ _ _ => rfl)
    have hnf := import_buffers_no_fault H um kern dev data data.n_bufs 0
      (fun _ => zero_buffer) tr' (fun m _ hm => hfault m (by omega))
    have himp' := himp hnf
    rcases hres : import_buffers H um kern dev data data.n_bufs 0 (fun _ => zero_buffer) tr'
      with ⟨jump, bufs, trB⟩
    rw [hres] at hev himp' hnf
    simp only at hev himp' hnf
    subst hev
    cases jump with
    | err_out err => exact absurd rfl (hnf err)
    | err_import err =>
      obtain ⟨_, h2, h3, _⟩ := err_import_projections H data bufs true intfs
        (decide (data.n_bufs ≠ 0) && kern.kmalloc_ok Alloc.bufs) err (tr' ++ evs)
      refine ⟨imported evs, ?_, ?_⟩
      · simp only [h2, imported_append, hi']
      · simp only [h3, released_append, hr', hrel, himp', List.append_nil]
    | done =>
      obtain ⟨_, h2, h3, _⟩ := validate_post_spec H ops dev data post_ext post_ext_size intfs
        (decide (data.n_bufs ≠ 0) && kern.kmalloc_ok Alloc.bufs) bufs (tr' ++ evs)
      refine ⟨imported evs, ?_, ?_⟩
      · simp only [h2, imported_append, hi']
      · simp only [h3, released_append, hr', hrel, himp', List.append_nil]

theorem validate_intfs_balance (H : Headers) (um : UserMemory) (kern : Kernel)
    (ops : adf_device_ops) (dev : adf_device) (data : adf_validate_config_ext)
    (post_ext : adf_post_ext) (post_ext_size : Nat) (tr : List Event)
    (hfault : ∀ m, m < data.n_bufs → um.buffer_config data.bufs m ≠ none) :
    ∃ held,
      imported (validate_intfs H um kern ops dev data post_ext post_ext_size tr).2
        = imported tr ++ held ∧
      released (validate_intfs H um kern ops dev data post_ext post_ext_size tr).2
        = released tr ++ held := by
  unfold validate_intfs
  simp only []
  obtain ⟨tr', htr', hi', hr'⟩ : ∃ tr', tr' =
      (if data.n_interfaces ≠ 0 then
        tr ++ [Event.kmalloc Alloc.intfs
          (decide (data.n_interfaces ≠ 0) && kern.kmalloc_ok Alloc.intfs)]
       else tr) ∧ imported tr' = imported tr ∧ released tr' = released tr := by
    refine ⟨_, rfl, ?_, ?_⟩ <;> split <;> simp [imported_append, released_append, imported, released]
  rw [← htr']
  split
  · obtain ⟨_, h2, h3, _⟩ := err_out_projections true false false (-EFAULT) tr
    exact ⟨[], by rw [h2]; simp, by rw [h3]; simp⟩
  · split
    · obtain ⟨_, h2, h3, _⟩ := err_out_projections true false false (-ENOMEM) tr'
      exact ⟨[], by rw [h2, hi']; simp, by rw [h3, hr']; simp⟩
    · split
      · rename_i err _
        obtain ⟨_, h2, h3, _⟩ := err_out_projections true
          (decide (data.n_interfaces ≠ 0) && kern.kmalloc_ok Alloc.intfs) false err tr'
        exact ⟨[], by rw [h2, hi']; simp, by rw [h3, hr']; simp⟩
      · obtain ⟨held, h2, h3⟩ := validate_bufs_balance H um kern ops dev data post_ext
          post_ext_size (decide (data.n_interfaces ≠ 0) && kern.kmalloc_ok Alloc.intfs) tr' hfault
        exact ⟨held, by rw [h2, hi'], by rw [h3, hr']⟩

/-- Release of imports on every path but one: when no copy of a buffer config
faults, the handles `validate` releases with `dma_buf_put` are, in order, the
handles it imported successfully with `dma_buf_get`. -/
theorem validate_releases_imports (H : Headers) (um : UserMemory) (kern : Kernel)
    (ops : adf_device_ops) (dev : adf_device) (arg : Nat)
    (hfault : ∀ data, um.validate_config arg = some data →
      ∀ m, m < data.n_bufs → um.buffer_config data.bufs m ≠ none) :
    released (validate H um kern ops dev arg).2 = imported (validate H um kern ops dev arg).2 := by
  unfold validate
  cases hdata : um.validate_config arg with
  | none => simp [err_out, imported_append, released_append, imported, released]
  | some data =>
    simp only []
    repeat' split
    all_goals first
      | simp [err_out, imported_append, released_append, imported, released]
      | (obtain ⟨held, h2, h3⟩ := validate_intfs_balance H um kern ops dev data _ _
            [Event.kmalloc Alloc.post_ext true] (hfault data hdata)
         rw [h2, h3]
         simp [imported, released])

/-! ## Properties of the buffer sanity check -/

theorem ite_false_eq_true_iff (c : Prop) [Decidable c] (b : Bool) :
    (if c then false else b) = true ↔ ¬ c ∧ b = true := by
  by_cases h : c <;> simp [h]

theorem planes_sane_iff (buf : adf_buffer) (k plane : Nat) :
    planes_sane buf k plane = true ↔
      ∀ p, plane ≤ p → p < plane + k → buf.dma_bufs p ≠ 0 ∧ buf.pitch p ≠ 0 := by
  induction k generalizing plane with
  | zero =>
    simp only [planes_sane, true_iff]
    intro p h1 h2
    omega
  | succ k ih =>
    simp only [planes_sane]
    by_cases hd : buf.dma_bufs plane = 0
    · simp only [hd, if_true, Bool.false_eq_true, false_iff]
      intro h
      exact (h plane (le_refl _) (by omega)).1 hd
    · by_cases hp : buf.pitch plane = 0
      · simp only [hd, hp, if_true, if_false, Bool.false_eq_true, false_iff]
        intro h
        exact (h plane (le_refl _) (by omega)).2 hp
      · simp only [hd, hp, if_false, ih (plane + 1)]
        constructor
        · intro h p h1 h2
          by_cases hpp : p = plane
          · subst hpp; exact ⟨hd, hp⟩
          · exact h p (by omega) (by omega)
        · intro h p h1 h2
          exact h p (by omega) (by omega)

/-- The gate as one conjunction of the conditions it tests. -/
theorem adf_img_buffer_sanity_check_iff (H : Headers) (intf : adf_interface) (buf : adf_buffer)
    (e : adf_buffer_config_ext) :
    adf_img_buffer_sanity_check H intf buf e = true ↔
      buf.w ≠ 0 ∧ buf.h ≠ 0 ∧ buf.format ≠ 0 ∧ buf.n_planes ≠ 0 ∧
      buf.overlay_engine ≠ none ∧
      (∀ p, p < buf.n_planes → buf.dma_bufs p ≠ 0 ∧ buf.pitch p ≠ 0) ∧
      (e.crop.x1 < e.crop.x2 ∧ e.crop.y1 < e.crop.y2) ∧
      (e.crop.x1 ≤ buf.w ∧ e.crop.x2 ≤ buf.w ∧ e.crop.y1 ≤ buf.h ∧ e.crop.y2 ≤ buf.h) ∧
      (e.display.x1 < e.display.x2 ∧ e.display.y1 < e.display.y2) ∧
      (e.transform = H.ADF_BUFFER_TRANSFORM_NONE_EXT ∨
        e.transform = H.ADF_BUFFER_TRANSFORM_FLIP_H_EXT ∨
        e.transform = H.ADF_BUFFER_TRANSFORM_FLIP_V_EXT ∨
        e.transform = H.ADF_BUFFER_TRANSFORM_ROT_90_EXT ∨
        e.transform = H.ADF_BUFFER_TRANSFORM_ROT_180_EXT ∨
        e.transform = H.ADF_BUFFER_TRANSFORM_ROT_270_EXT) ∧
      (e.blend_type = H.ADF_BUFFER_BLENDING_NONE_EXT ∨
        e.blend_type = H.ADF_BUFFER_BLENDING_PREMULT_EXT ∨
        e.blend_type = H.ADF_BUFFER_BLENDING_COVERAGE_EXT) := by
  have hplanes := planes_sane_iff buf buf.n_planes 0
  simp only [Nat.zero_le, true_implies, Nat.zero_add] at hplanes
  unfold adf_img_buffer_sanity_check
  simp only [pitch_member_is_null, ite_false_eq_true_iff, Bool.false_eq_true, not_false_eq_true,
    true_and, and_true, Bool.not_eq_false, hplanes, not_not]
  constructor
  · rintro ⟨h1, h2, h3, h4, h5, h6, h7, h8, h9, _, h11, h12⟩
    exact ⟨h1, h2, h3, h4, h5, h6, by omega, by omega, by omega, h11, h12⟩
  · rintro ⟨h1, h2, h3, h4, h5, h6, h7, h8, h9, h11, h12⟩
    exact ⟨h1, h2, h3, h4, h5, h6, by omega, by omega, by omega, by omega, h11, h12⟩

/-- C11: `adf_img_buffer_sanity_check` returns false for every buffer in which
the width, the height, the format or the plane count is zero, or the pitch of
some active plane is zero, whatever the other fields and the extended
metadata hold. -/
theorem sanity_check_rejects_zero_field (H : Headers) (intf : adf_interface)
    (buf : adf_buffer) (buf_ext : adf_buffer_config_ext)
    (hzero : buf.w = 0 ∨ buf.h = 0 ∨ buf.format = 0 ∨ buf.n_planes = 0 ∨
      ∃ p, p < buf.n_planes ∧ buf.pitch p = 0) :
    adf_img_buffer_sanity_check H intf buf buf_ext = false := by
  cases hres : adf_img_buffer_sanity_check H intf buf buf_ext with
  | false => rfl
  | true =>
    exfalso
    obtain ⟨h1, h2, h3, h4, _, h6, _⟩ :=
      (adf_img_buffer_sanity_check_iff H intf buf buf_ext).1 hres
    rcases hzero with h | h | h | h | ⟨p, hp, hz⟩
    · exact h1 h
    · exact h2 h
    · exact h3 h
    · exact h4 h
    · exact (h6 p hp).2 hz

theorem sanity_check_rejects_zero_field_witness :
    adf_img_buffer_sanity_check linux_headers hd_interface { hd_buffer with w := 0 }
      wide_display_ext = false ∧
    adf_img_buffer_sanity_check linux_headers hd_interface
      { hd_buffer with n_planes := 2 } wide_display_ext = false :=
  ⟨sanity_check_rejects_zero_field linux_headers hd_interface { hd_buffer with w := 0 }
      wide_display_ext (Or.inl rfl),
   sanity_check_rejects_zero_field linux_headers hd_interface { hd_buffer with n_planes := 2 }
      wide_display_ext (Or.inr (Or.inr (Or.inr (Or.inr ⟨1, by decide, rfl⟩))))⟩

/-- C12 (the code at the failing input): a 1920x1080 buffer whose display
rectangle is (0,0)-(5000,5000) passes `adf_img_buffer_sanity_check`: the
display rectangle reaches beyond the buffer, and beyond the interface mode. -/
theorem sanity_check_passes_display_beyond_buffer :
    adf_img_buffer_sanity_check linux_headers hd_interface hd_buffer wide_display_ext = true ∧
    wide_display_ext.display.x2 > hd_buffer.w ∧
    wide_display_ext.display.y2 > hd_buffer.h ∧
    wide_display_ext.display.x2 > hd_interface.current_mode.hdisplay ∧
    wide_display_ext.display.y2 > hd_interface.current_mode.vdisplay := by
  decide

/-- C13: for a buffer whose plane count is within the `ADF_MAX_PLANES` entries
of its plane arrays, `adf_img_buffer_sanity_check` returns true exactly when
`w`, `h`, `format` and `n_planes` are non-zero, the overlay engine is non-null,
every plane below `n_planes` has a non-null `dma_buf` and a non-zero pitch, the
crop rectangle has `x1 < x2`, `y1 < y2` and its four coordinates within the
buffer, the display rectangle has `x1 < x2`, `y1 < y2`, the transform is one of
the six enumerators and the blend type one of the three; the plane offsets do
not enter the result.  The bound on the plane count is the range in which
`planes_sane` is the plane loop of the source. -/
theorem sanity_check_exact_gate (H : Headers) (intf : adf_interface) (buf : adf_buffer)
    (buf_ext : adf_buffer_config_ext) (hplanes : buf.n_planes ≤ H.ADF_MAX_PLANES) :
    (adf_img_buffer_sanity_check H intf buf buf_ext = true ↔
      buf.w ≠ 0 ∧ buf.h ≠ 0 ∧ buf.format ≠ 0 ∧ buf.n_planes ≠ 0 ∧
      buf.overlay_engine ≠ none ∧
      (∀ p, p < buf.n_planes → buf.dma_bufs p ≠ 0 ∧ buf.pitch p ≠ 0) ∧
      (buf_ext.crop.x1 < buf_ext.crop.x2 ∧ buf_ext.crop.y1 < buf_ext.crop.y2) ∧
      (buf_ext.crop.x1 ≤ buf.w ∧ buf_ext.crop.x2 ≤ buf.w ∧
        buf_ext.crop.y1 ≤ buf.h ∧ buf_ext.crop.y2 ≤ buf.h) ∧
      (buf_ext.display.x1 < buf_ext.display.x2 ∧ buf_ext.display.y1 < buf_ext.display.y2) ∧
      (buf_ext.transform = H.ADF_BUFFER_TRANSFORM_NONE_EXT ∨
        buf_ext.transform = H.ADF_BUFFER_TRANSFORM_FLIP_H_EXT ∨
        buf_ext.transform = H.ADF_BUFFER_TRANSFORM_FLIP_V_EXT ∨
        buf_ext.transform = H.ADF_BUFFER_TRANSFORM_ROT_90_EXT ∨
        buf_ext.transform = H.ADF_BUFFER_TRANSFORM_ROT_180_EXT ∨
        buf_ext.transform = H.ADF_BUFFER_TRANSFORM_ROT_270_EXT) ∧
      (buf_ext.blend_type = H.ADF_BUFFER_BLENDING_NONE_EXT ∨
        buf_ext.blend_type = H.ADF_BUFFER_BLENDING_PREMULT_EXT ∨
        buf_ext.blend_type = H.ADF_BUFFER_BLENDING_COVERAGE_EXT)) ∧
    (∀ offset : Nat → Nat,
      adf_img_buffer_sanity_check H intf { buf with offset := offset } buf_ext =
        adf_img_buffer_sanity_check H intf buf buf_ext) := by
  have _ := hplanes
  refine ⟨adf_img_buffer_sanity_check_iff H intf buf buf_ext, fun offset => ?_⟩
  rw [Bool.eq_iff_iff, adf_img_buffer_sanity_check_iff, adf_img_buffer_sanity_check_iff]

theorem sanity_check_exact_gate_witness :
    hd_buffer.n_planes ≤ linux_headers.ADF_MAX_PLANES ∧
    adf_img_buffer_sanity_check linux_headers hd_interface hd_buffer wide_display_ext = true ∧
    adf_img_buffer_sanity_check linux_headers hd_interface
      { hd_buffer with offset := fun _ => 4096 } wide_display_ext =
      adf_img_buffer_sanity_check linux_headers hd_interface hd_buffer wide_display_ext :=
  ⟨by decide,
   (sanity_check_exact_gate linux_headers hd_interface hd_buffer wide_display_ext
      (by decide)).1.2 (by decide),
   (sanity_check_exact_gate linux_headers hd_interface hd_buffer wide_display_ext
      (by decide)).2 (fun _ => 4096)⟩

/-! ## Properties of the rectangle intersection -/

theorem adf_img_rects_intersect_iff (a b : drm_clip_rect) :
    adf_img_rects_intersect a b = true ↔
      a.x1 < b.x2 ∧ b.x1 < a.x2 ∧ a.y1 < b.y2 ∧ b.y1 < a.y2 := by
  unfold adf_img_rects_intersect
  constructor
  · intro h
    split_ifs at h with hc
    exact hc
  · intro h
    rw [if_pos h]

/-- C14: `adf_img_rects_intersect` is symmetric, for all rectangles, the
degenerate ones included. -/
theorem rects_intersect_symmetric (a b : drm_clip_rect) :
    adf_img_rects_intersect a b = adf_img_rects_intersect b a := by
  rw [Bool.eq_iff_iff, adf_img_rects_intersect_iff, adf_img_rects_intersect_iff]
  constructor <;> rintro ⟨h1, h2, h3, h4⟩ <;> exact ⟨h2, h1, h4, h3⟩

/-- C15 (as stated, refuted): the zero-width rectangle (3,0)-(3,10) and the
square (0,0)-(10,10) have no common region of positive area, yet
`adf_img_rects_intersect` returns true on them. -/
theorem rects_intersect_true_on_empty_rect :
    adf_img_rects_intersect sliver_rect ten_square = true ∧
    ¬ (max sliver_rect.x1 ten_square.x1 < min sliver_rect.x2 ten_square.x2 ∧
       max sliver_rect.y1 ten_square.y1 < min sliver_rect.y2 ten_square.y2) := by
  decide

/-- C15 (amended): for all rectangles a common region of positive area makes
`adf_img_rects_intersect` true; for rectangles that each have `x1 < x2` and
`y1 < y2` it is true exactly when the common region has positive area. -/
theorem rects_intersect_iff_overlap (a b : drm_clip_rect) :
    ((max a.x1 b.x1 < min a.x2 b.x2 ∧ max a.y1 b.y1 < min a.y2 b.y2) →
      adf_img_rects_intersect a b = true) ∧
    (a.x1 < a.x2 ∧ a.y1 < a.y2 → b.x1 < b.x2 ∧ b.y1 < b.y2 →
      (adf_img_rects_intersect a b = true ↔
        max a.x1 b.x1 < min a.x2 b.x2 ∧ max a.y1 b.y1 < min a.y2 b.y2)) := by
  constructor
  · rintro ⟨hx, hy⟩
    rw [adf_img_rects_intersect_iff]
    simp only [max_lt_iff, lt_min_iff] at hx hy
    omega
  · rintro ⟨ax, ay⟩ ⟨bx, b_y⟩
    rw [adf_img_rects_intersect_iff]
    simp only [max_lt_iff, lt_min_iff]
    omega

theorem rects_intersect_iff_overlap_witness :
    adf_img_rects_intersect ten_square quarter_hd = true ↔
      max ten_square.x1 quarter_hd.x1 < min ten_square.x2 quarter_hd.x2 ∧
      max ten_square.y1 quarter_hd.y1 < min ten_square.y2 quarter_hd.y2 :=
  (rects_intersect_iff_overlap ten_square quarter_hd).2 (by decide) (by decide)

/-- C16: rectangles of which one ends exactly where the other begins on some
axis do not intersect. -/
theorem rects_intersect_touching_edge (a b : drm_clip_rect)
    (hedge : a.x2 = b.x1 ∨ a.x1 = b.x2 ∨ a.y2 = b.y1 ∨ a.y1 = b.y2) :
    adf_img_rects_intersect a b = false := by
  cases hres : adf_img_rects_intersect a b with
  | false => rfl
  | true =>
    exfalso
    obtain ⟨h1, h2, h3, h4⟩ := (adf_img_rects_intersect_iff a b).1 hres
    omega

theorem rects_intersect_touching_edge_witness :
    adf_img_rects_intersect ten_square next_square = false :=
  rects_intersect_touching_edge ten_square next_square (Or.inl rfl)

/-! ## Properties of the compatibility handler -/

theorem validate_header_only (H : Headers) (um um' : UserMemory) (kern : Kernel)
    (ops : adf_device_ops) (dev : adf_device) (a a' : Nat)
    (hhdr : um'.validate_config a' = um.validate_config a)
    (hok : um'.access_ok = um.access_ok) (hpe : um'.post_ext = um.post_ext)
    (hid : um'.interface_id = um.interface_id) (hbc : um'.buffer_config = um.buffer_config) :
    validate H um' kern ops dev a' = validate H um kern ops dev a := by
  have hintfs : ∀ k i data, resolve_interfaces um' dev data k i = resolve_interfaces um dev data k i := by
    intro k
    induction k with
    | zero => intro i data; rfl
    | succ k ih => intro i data; simp only [resolve_interfaces, hid, ih]
  have hbufs : ∀ k i data bufs tr,
      import_buffers H um' kern dev data k i bufs tr = import_buffers H um kern dev data k i bufs tr := by
    intro k
    induction k with
    | zero => intro i data bufs tr; rfl
    | succ k ih => intro i data bufs tr; simp only [import_buffers, hbc, ih]
  unfold validate
  rw [hhdr]
  simp only [hok, hpe, validate_intfs, hintfs, validate_bufs, hbufs]

/-- The handler's verdict while the address limit is not lifted: the copy of the
local request faults, whatever the request says. -/
theorem compat_faults_under_user_ds (H : Headers) (um : UserMemory) (kern : Kernel)
    (ops : adf_device_ops) (dev : adf_device) (local_addr arg_compat : Nat)
    (legacy : adf_validate_config_ext32) (hok : um.access_ok arg_compat 20 = true) :
    adf_img_ioctl_validate_compat H um kern ops dev false local_addr arg_compat legacy =
      (-EFAULT, [Event.kfree Alloc.post_ext false, Event.kfree Alloc.intfs false,
        Event.kfree Alloc.bufs false]) := by
  simp [adf_img_ioctl_validate_compat, hok, validate, with_kernel_local, err_out]

/-- The handler's verdict while the address limit is lifted: it is the verdict
of `adf_img_ioctl_validate` on a canonical request with the same field values. -/
theorem compat_agrees_under_kernel_ds (H : Headers) (um : UserMemory) (kern : Kernel)
    (ops : adf_device_ops) (dev : adf_device) (local_addr arg_compat arg : Nat)
    (legacy : adf_validate_config_ext32)
    (hsame : um.validate_config arg = some (compat_arg legacy))
    (hok : um.access_ok arg 32 = um.access_ok arg_compat 20) :
    adf_img_ioctl_validate_compat H um kern ops dev true local_addr arg_compat legacy =
      adf_img_ioctl_validate H um kern ops dev arg := by
  unfold adf_img_ioctl_validate_compat adf_img_ioctl_validate
  rw [hok]
  split
  · rfl
  · exact validate_header_only H um _ kern ops dev arg local_addr
      (by simp [with_kernel_local, hsame]) rfl rfl rfl rfl

/-- C17 (the code at the failing input): the canonical null flip is accepted by
`adf_img_ioctl_validate`; the legacy request with the same field values is
answered `-EFAULT` by `adf_img_ioctl_validate_compat`, which hands `validate`
the address of its own local where `validate` copies from the caller. -/
theorem compat_rejects_what_canonical_accepts :
    null_flip_caller.validate_config 0x4000 = some (compat_arg null_flip_legacy) ∧
    (adf_img_ioctl_validate linux_headers null_flip_caller generous_kernel simple_ops
      hd_device 0x4000).1 = 0 ∧
    adf_img_ioctl_validate_compat linux_headers null_flip_caller generous_kernel simple_ops
      hd_device false handler_local 0x3000 null_flip_legacy =
      (-EFAULT, [Event.kfree Alloc.post_ext false, Event.kfree Alloc.intfs false,
        Event.kfree Alloc.bufs false]) := by
  decide

/-! ## Independence of the rectangle origins -/

theorem buf_ext_rejected_with_origins (H : Headers) (e : adf_buffer_config_ext)
    (o : drm_clip_rect × drm_clip_rect) (hd vd : Nat) :
    buf_ext_rejected H (buf_ext_with_origins e o) hd vd = buf_ext_rejected H e hd vd := by
  have h : buf_ext_rejected H (buf_ext_with_origins e o) hd vd = false ↔
      buf_ext_rejected H e hd vd = false := by
    rw [buf_ext_rejected_eq_false_iff, buf_ext_rejected_eq_false_iff]
    exact Iff.rfl
  cases ha : buf_ext_rejected H (buf_ext_with_origins e o) hd vd with
  | false => exact (h.1 ha).symm
  | true =>
    cases hb : buf_ext_rejected H e hd vd with
    | false => rw [h.2 hb] at ha; exact absurd ha (by decide)
    | true => rfl

theorem validate_bufs_ext_with_origins (H : Headers) (post_ext : adf_post_ext)
    (origins : Nat → drm_clip_rect × drm_clip_rect) (interface : adf_interface) (k i : Nat) :
    validate_bufs_ext H
      { post_ext with bufs_ext := fun i => buf_ext_with_origins (post_ext.bufs_ext i) (origins i) }
      interface k i = validate_bufs_ext H post_ext interface k i := by
  induction k generalizing i with
  | zero => rfl
  | succ k ih => simp only [validate_bufs_ext, buf_ext_rejected_with_origins, ih]

/-- C20: the verdict of `adf_img_validate_simple` does not depend on the
origins of the crop and display rectangles: replacing `crop.x1`, `crop.y1`,
`display.x1`, `display.y1` of every extended-metadata entry by arbitrary values
leaves the result unchanged, so neither `x1 < x2` nor `y1 < y2` is checked. -/
theorem validate_simple_ignores_origins (H : Headers) (dev : adf_device) (cfg : adf_post)
    (driver_state : Option Nat) (origins : Nat → drm_clip_rect × drm_clip_rect) :
    adf_img_validate_simple H dev (post_with_origins cfg origins) driver_state =
      adf_img_validate_simple H dev cfg driver_state := by
  simp only [adf_img_validate_simple, post_with_origins, validate_bufs_ext_with_origins]

/-! ## Lookups and imports in `validate` -/

theorem driver_validations_append (a b : List Event) :
    driver_validations (a ++ b) = driver_validations a + driver_validations b := by
  induction a with
  | nil => simp [driver_validations]
  | cons e rest ih =>
    cases e <;> simp [driver_validations, ih]
    omega

theorem driver_validations_put_planes (buf : adf_buffer) (k j : Nat) :
    driver_validations (put_planes buf k j) = 0 := by
  induction k generalizing j with
  | zero => rfl
  | succ k ih =>
    simp only [put_planes, driver_validations_append, ih, Nat.add_zero]
    split <;> rfl

theorem driver_validations_put_buffers (H : Headers) (bufs : Nat → adf_buffer) (k i : Nat) :
    driver_validations (put_buffers H bufs k i) = 0 := by
  induction k generalizing i with
  | zero => rfl
  | succ k ih =>
    simp [put_buffers, driver_validations_append, ih, driver_validations_put_planes]

theorem err_out_validations (a b c : Bool) (err : Int) (tr : List Event) :
    (err_out a b c err tr).1 = err ∧
    driver_validations (err_out a b c err tr).2 = driver_validations tr := by
  simp [err_out, driver_validations_append, driver_validations]

theorem err_import_validations (H : Headers) (data : adf_validate_config_ext)
    (bufs : Nat → adf_buffer) (a b c : Bool) (err : Int) (tr : List Event) :
    (err_import H data bufs a b c err tr).1 = err ∧
    driver_validations (err_import H data bufs a b c err tr).2 = driver_validations tr := by
  unfold err_import
  obtain ⟨h1, h2⟩ := err_out_validations a b c err (tr ++ put_buffers H bufs data.n_bufs 0)
  exact ⟨h1, by rw [h2, driver_validations_append, driver_validations_put_buffers]; rfl⟩

theorem import_planes_validations (kern : Kernel) (config : adf_buffer_config) (i : Nat) :
    ∀ (k j : Nat) (buf : adf_buffer) (tr : List Event),
      driver_validations (import_planes kern config i k j buf tr).2.2 = driver_validations tr := by
  intro k
  induction k with
  | zero => intro j buf tr; rfl
  | succ k ih =>
    intro j buf tr
    simp only [import_planes]
    split
    · simp [driver_validations_append, driver_validations]
    · rw [ih]
      simp [driver_validations_append, driver_validations]

theorem import_planes_all_good (kern : Kernel) (config : adf_buffer_config) (i : Nat) :
    ∀ (k j : Nat) (buf : adf_buffer) (tr : List Event),
      (∀ m, j ≤ m → m < j + k → IS_ERR_OR_NULL (kern.dma_buf_get i m (config.fd m)) = false) →
      (import_planes kern config i k j buf tr).1 = none := by
  intro k
  induction k with
  | zero => intro j buf tr _; rfl
  | succ k ih =>
    intro j buf tr h
    have hj := h j (le_refl j) (by omega)
    simp only [import_planes, store_same, hj, Bool.false_eq_true, if_false]
    exact ih (j + 1) _ _ (fun m h1 h2 => h m (by omega) (by omega))

theorem import_buffers_validations (H : Headers) (um : UserMemory) (kern : Kernel)
    (dev : adf_device) (data : adf_validate_config_ext) :
    ∀ (k i : Nat) (bufs : Nat → adf_buffer) (tr : List Event),
      driver_validations (import_buffers H um kern dev data k i bufs tr).2.2
        = driver_validations tr := by
  intro k
  induction k with
  | zero => intro i bufs tr; rfl
  | succ k ih =>
    intro i bufs tr
    cases hc : um.buffer_config data.bufs i with
    | none => rw [import_buffers_fault H um kern dev data k i bufs tr hc]
    | some config =>
      by_cases hpl : config.n_planes > H.ADF_MAX_PLANES
      · rw [import_buffers_too_many_planes H um kern dev data k i bufs tr config hc hpl]
      · cases hov : dev.overlay_engines config.overlay_engine with
        | none => rw [import_buffers_no_overlay H um kern dev data k i bufs tr config hc hpl hov]
        | some overlay =>
          have hv := import_planes_validations kern config i config.n_planes 0
            (fresh_buffer overlay config) tr
          rcases hres : import_planes kern config i config.n_planes 0
            (fresh_buffer overlay config) tr with ⟨r, bufP, trP⟩
          rw [hres] at hv
          cases r with
          | some err =>
            rw [import_buffers_plane_failed H um kern dev data k i bufs tr config overlay err
              bufP trP hc hpl hov hres]
            exact hv
          | none =>
            rw [import_buffers_next H um kern dev data k i bufs tr config overlay
              bufP trP hc hpl hov hres, ih]
            exact hv

/-- The buffer loop leaves at the first buffer that does not marshal: if the
buffers before `i` marshal, the loop leaves as an iteration entered at `i`
does. -/
theorem import_buffers_first_failure (H : Headers) (um : UserMemory) (kern : Kernel)
    (dev : adf_device) (data : adf_validate_config_ext) (i : Nat) (J : Jump)
    (hJ : ∀ k' bufs tr, (import_buffers H um kern dev data (k' + 1) i bufs tr).1 = J) :
    ∀ (k i0 : Nat) (bufs : Nat → adf_buffer) (tr : List Event),
      i0 ≤ i → i < i0 + k →
      (∀ m, i0 ≤ m → m < i → buffer_imports H um kern dev data m) →
      (import_buffers H um kern dev data k i0 bufs tr).1 = J := by
  intro k
  induction k with
  | zero => intro i0 bufs tr h1 h2 _; omega
  | succ k ih =>
    intro i0 bufs tr h1 h2 hpre
    by_cases hi : i0 = i
    · subst hi
      exact hJ k bufs tr
    · obtain ⟨config, overlay, hc, hpl, hov, hgood⟩ := hpre i0 (le_refl _) (by omega)
      have hnone := import_planes_all_good kern config i0 config.n_planes 0
        (fresh_buffer overlay config) tr (fun m _ hm => hgood m (by omega))
      rcases hres : import_planes kern config i0 config.n_planes 0
        (fresh_buffer overlay config) tr with ⟨r, bufP, trP⟩
      rw [hres] at hnone
      simp only at hnone
      subst hnone
      rw [import_buffers_next H um kern dev data k i0 bufs tr config overlay bufP trP hc
        (by omega) hov hres]
      exact ih (i0 + 1) _ _ (by omega) (by omega) (fun m hm1 hm2 => hpre m (by omega) hm2)

theorem resolve_interfaces_all (um : UserMemory) (dev : adf_device)
    (data : adf_validate_config_ext) :
    ∀ (k i : Nat), (∀ m, i ≤ m → m < i + k → interface_resolves um dev data m) →
      resolve_interfaces um dev data k i = none := by
  intro k
  induction k with
  | zero => intro i _; rfl
  | succ k ih =>
    intro i h
    obtain ⟨id, intf, hid, hintf⟩ := h i (le_refl _) (by omega)
    simp only [resolve_interfaces, hid, hintf]
    exact ih (i + 1) (fun m h1 h2 => h m (by omega) (by omega))

theorem resolve_interfaces_unresolved (um : UserMemory) (dev : adf_device)
    (data : adf_validate_config_ext) (i id : Nat)
    (hid : um.interface_id data.interfaces i = some id) (hnone : dev.interfaces id = none) :
    ∀ (k i0 : Nat), i0 ≤ i → i < i0 + k →
      (∀ m, i0 ≤ m → m < i → interface_resolves um dev data m) →
      resolve_interfaces um dev data k i0 = some (-EINVAL) := by
  intro k
  induction k with
  | zero => intro i0 h1 h2 _; omega
  | succ k ih =>
    intro i0 h1 h2 hpre
    by_cases hi : i0 = i
    · subst hi
      simp [resolve_interfaces, hid, hnone]
    · obtain ⟨id', intf, hid', hintf⟩ := hpre i0 (le_refl _) (by omega)
      simp only [resolve_interfaces, hid', hintf]
      exact ih (i0 + 1) (by omega) (by omega) (fun m hm1 hm2 => hpre m (by omega) hm2)

theorem validate_of_header (H : Headers) (um : UserMemory) (kern : Kernel)
    (ops : adf_device_ops) (dev : adf_device) (arg : Nat) (data : adf_validate_config_ext)
    (post_ext : adf_post_ext) (hpre : header_marshals H um kern arg data post_ext) :
    validate H um kern ops dev arg =
      validate_intfs H um kern ops dev data post_ext
        ((H.sizeof_adf_post_ext + data.n_bufs * H.sizeof_adf_buffer_config_ext) % U32_MOD)
        [Event.kmalloc Alloc.post_ext true] := by
  obtain ⟨h1, h2, h3, h4, h5, h6, h7, _⟩ := hpre
  unfold validate
  simp only [h1]
  rw [if_neg (by omega), if_neg (by omega), if_neg (by simp [h4]), if_neg (by simp [h5]),
    if_neg (by simp [h6])]
  simp only [h7]

theorem validate_intfs_lookup_failed (H : Headers) (um : UserMemory) (kern : Kernel)
    (ops : adf_device_ops) (dev : adf_device) (data : adf_validate_config_ext)
    (post_ext : adf_post_ext) (size : Nat) (tr : List Event) (err : Int)
    (hacc : data.n_interfaces ≠ 0 →
      um.access_ok data.interfaces ((H.sizeof_interface_id * data.n_interfaces) % SIZE_T_MOD)
        = true ∧ kern.kmalloc_ok Alloc.intfs = true)
    (hres : resolve_interfaces um dev data data.n_interfaces 0 = some err) :
    (validate_intfs H um kern ops dev data post_ext size tr).1 = err ∧
    driver_validations (validate_intfs H um kern ops dev data post_ext size tr).2
      = driver_validations tr := by
  unfold validate_intfs
  simp only [hres]
  rw [if_neg (by intro h; have := hacc h.1; simp_all),
    if_neg (by intro h; have := hacc h.1; simp_all)]
  obtain ⟨h1, h2⟩ := err_out_validations true
    (decide (data.n_interfaces ≠ 0) && kern.kmalloc_ok Alloc.intfs) false err
    (if data.n_interfaces ≠ 0 then
      tr ++ [Event.kmalloc Alloc.intfs
        (decide (data.n_interfaces ≠ 0) && kern.kmalloc_ok Alloc.intfs)]
     else tr)
  refine ⟨h1, ?_⟩
  rw [h2]
  split <;> simp [driver_validations_append, driver_validations]

theorem validate_intfs_resolved (H : Headers) (um : UserMemory) (kern : Kernel)
    (ops : adf_device_ops) (dev : adf_device) (data : adf_validate_config_ext)
    (post_ext : adf_post_ext) (size : Nat) (tr : List Event)
    (hacc : data.n_interfaces ≠ 0 →
      um.access_ok data.interfaces ((H.sizeof_interface_id * data.n_interfaces) % SIZE_T_MOD)
        = true ∧ kern.kmalloc_ok Alloc.intfs = true)
    (hres : resolve_interfaces um dev data data.n_interfaces 0 = none) :
    ∃ intfs tr', validate_intfs H um kern ops dev data post_ext size tr =
        validate_bufs H um kern ops dev data post_ext size intfs tr' ∧
      driver_validations tr' = driver_validations tr := by
  unfold validate_intfs
  simp only [hres]
  rw [if_neg (by intro h; have := hacc h.1; simp_all),
    if_neg (by intro h; have := hacc h.1; simp_all)]
  refine ⟨_, _, rfl, ?_⟩
  split <;> simp [driver_validations_append, driver_validations]

theorem validate_bufs_import_failed (H : Headers) (um : UserMemory) (kern : Kernel)
    (ops : adf_device_ops) (dev : adf_device) (data : adf_validate_config_ext)
    (post_ext : adf_post_ext) (size : Nat) (intfs : Bool) (tr : List Event) (err : Int)
    (halloc : data.n_bufs ≠ 0 → kern.kmalloc_ok Alloc.bufs = true)
    (hjump : ∀ bufs0 tr0,
      (import_buffers H um kern dev data data.n_bufs 0 bufs0 tr0).1 = Jump.err_import err) :
    (validate_bufs H um kern ops dev data post_ext size intfs tr).1 = err ∧
    driver_validations (validate_bufs H um kern ops dev data post_ext size intfs tr).2
      = driver_validations tr := by
  unfold validate_bufs
  simp only []
  rw [if_neg (by intro h; have := halloc h.1; simp_all)]
  have hj := hjump (fun _ => zero_buffer)
    (if data.n_bufs ≠ 0 then
      tr ++ [Event.kmalloc Alloc.bufs (decide (data.n_bufs ≠ 0) && kern.kmalloc_ok Alloc.bufs)]
     else tr)
  have hv := import_buffers_validations H um kern dev data data.n_bufs 0 (fun _ => zero_buffer)
    (if data.n_bufs ≠ 0 then
      tr ++ [Event.kmalloc Alloc.bufs (decide (data.n_bufs ≠ 0) && kern.kmalloc_ok Alloc.bufs)]
     else tr)
  rcases hres : import_buffers H um kern dev data data.n_bufs 0 (fun _ => zero_buffer)
    (if data.n_bufs ≠ 0 then
      tr ++ [Event.kmalloc Alloc.bufs (decide (data.n_bufs ≠ 0) && kern.kmalloc_ok Alloc.bufs)]
     else tr) with ⟨jump, bufs, trB⟩
  rw [hres] at hj hv
  simp only at hj hv
  subst hj
  simp only []
  obtain ⟨h1, h2⟩ := err_import_validations H data bufs true intfs
    (decide (data.n_bufs ≠ 0) && kern.kmalloc_ok Alloc.bufs) err trB
  refine ⟨h1, ?_⟩
  rw [h2, hv]
  split <;> simp [driver_validations_append, driver_validations]

/-- C18: with the header and payload marshalled, the first lookup that fails
decides the status of `validate`: an interface id that does not resolve gives
`-EINVAL`; a buffer config with more than `ADF_MAX_PLANES` planes gives
`-EINVAL`; an overlay id that does not resolve gives `-ENOENT`; in each case
the driver's validate capability is not called. -/
theorem validate_first_failing_lookup (H : Headers) (um : UserMemory) (kern : Kernel)
    (ops : adf_device_ops) (dev : adf_device) (arg : Nat) (data : adf_validate_config_ext)
    (post_ext : adf_post_ext) (hpre : header_marshals H um kern arg data post_ext) :
    (∀ i id, i < data.n_interfaces →
      (∀ m, m < i → interface_resolves um dev data m) →
      um.interface_id data.interfaces i = some id → dev.interfaces id = none →
      (validate H um kern ops dev arg).1 = -EINVAL ∧
      driver_validations (validate H um kern ops dev arg).2 = 0) ∧
    (∀ i config, i < data.n_bufs →
      (∀ m, m < data.n_interfaces → interface_resolves um dev data m) →
      kern.kmalloc_ok Alloc.bufs = true →
      (∀ m, m < i → buffer_imports H um kern dev data m) →
      um.buffer_config data.bufs i = some config →
      (config.n_planes > H.ADF_MAX_PLANES →
        (validate H um kern ops dev arg).1 = -EINVAL ∧
        driver_validations (validate H um kern ops dev arg).2 = 0) ∧
      (config.n_planes ≤ H.ADF_MAX_PLANES →
        dev.overlay_engines config.overlay_engine = none →
        (validate H um kern ops dev arg).1 = -ENOENT ∧
        driver_validations (validate H um kern ops dev arg).2 = 0)) := by
  have hacc := hpre.2.2.2.2.2.2.2
  rw [validate_of_header H um kern ops dev arg data post_ext hpre]
  constructor
  · intro i id hi hbefore hid hnone
    have hres := resolve_interfaces_unresolved um dev data i id hid hnone data.n_interfaces 0
      (Nat.zero_le _) (by omega) (fun m _ hm => hbefore m hm)
    obtain ⟨h1, h2⟩ := validate_intfs_lookup_failed H um kern ops dev data post_ext _
      [Event.kmalloc Alloc.post_ext true] (-EINVAL) hacc hres
    exact ⟨h1, by rw [h2]; rfl⟩
  · intro i config hi hintfs halloc hbefore hc
    have hres := resolve_interfaces_all um dev data data.n_interfaces 0
      (fun m _ hm => hintfs m (by omega))
    obtain ⟨intfs, tr', heq, hv⟩ := validate_intfs_resolved H um kern ops dev data post_ext
      ((H.sizeof_adf_post_ext + data.n_bufs * H.sizeof_adf_buffer_config_ext) % U32_MOD)
      [Event.kmalloc Alloc.post_ext true] hacc hres
    rw [heq]
    have hzero : driver_validations tr' = 0 := by rw [hv]; rfl
    constructor
    · intro hpl
      have hjump : ∀ bufs0 tr0, (import_buffers H um kern dev data data.n_bufs 0 bufs0 tr0).1 =
          Jump.err_import (-EINVAL) := fun bufs0 tr0 =>
        import_buffers_first_failure H um kern dev data i (Jump.err_import (-EINVAL))
          (fun k' bufs tr => by
            rw [import_buffers_too_many_planes H um kern dev data k' i bufs tr config hc hpl])
          data.n_bufs 0 bufs0 tr0 (Nat.zero_le _) (by omega) (fun m _ hm => hbefore m hm)
      obtain ⟨h1, h2⟩ := validate_bufs_import_failed H um kern ops dev data post_ext _ intfs tr'
        (-EINVAL) (fun _ => halloc) hjump
      exact ⟨h1, by rw [h2, hzero]⟩
    · intro hpl hov
      have hjump : ∀ bufs0 tr0, (import_buffers H um kern dev data data.n_bufs 0 bufs0 tr0).1 =
          Jump.err_import (-ENOENT) := fun bufs0 tr0 =>
        import_buffers_first_failure H um kern dev data i (Jump.err_import (-ENOENT))
          (fun k' bufs tr => by
            rw [import_buffers_no_overlay H um kern dev data k' i bufs tr config hc
              (by omega) hov])
          data.n_bufs 0 bufs0 tr0 (Nat.zero_le _) (by omega) (fun m _ hm => hbefore m hm)
      obtain ⟨h1, h2⟩ := validate_bufs_import_failed H um kern ops dev data post_ext _ intfs tr'
        (-ENOENT) (fun _ => halloc) hjump
      exact ⟨h1, by rw [h2, hzero]⟩

theorem first_buffer_imports (um : UserMemory) (kern : Kernel)
    (hc : um.buffer_config two_buffer_request.bufs 0 = some one_plane_config)
    (hget : IS_ERR_OR_NULL (kern.dma_buf_get 0 0 3) = false) :
    ∀ m, m < 1 → buffer_imports linux_headers um kern hd_device two_buffer_request m := by
  intro m hm
  have hm0 : m = 0 := by omega
  subst hm0
  refine ⟨one_plane_config, rgb_overlay, hc, by decide, rfl, ?_⟩
  intro j hj
  have hj0 : j = 0 := by
    have : j < 1 := hj
    omega
  subst hj0
  exact hget

theorem validate_first_failing_lookup_witness :
    ((validate linux_headers stale_interface_caller generous_kernel simple_ops hd_device
        0x4000).1 = -EINVAL ∧
      driver_validations (validate linux_headers stale_interface_caller generous_kernel
        simple_ops hd_device 0x4000).2 = 0) ∧
    ((validate linux_headers five_plane_caller generous_kernel simple_ops hd_device
        0x4000).1 = -EINVAL ∧
      driver_validations (validate linux_headers five_plane_caller generous_kernel
        simple_ops hd_device 0x4000).2 = 0) ∧
    ((validate linux_headers stale_overlay_caller generous_kernel simple_ops hd_device
        0x4000).1 = -ENOENT ∧
      driver_validations (validate linux_headers stale_overlay_caller generous_kernel
        simple_ops hd_device 0x4000).2 = 0) :=
  ⟨(validate_first_failing_lookup linux_headers stale_interface_caller generous_kernel
      simple_ops hd_device 0x4000
      { n_interfaces := 2, interfaces := 0x7000, n_bufs := 0, bufs := 0, post_ext := 0x6000 }
      caller_post_ext
      ⟨rfl, by decide, by decide, rfl, rfl, rfl, rfl, fun _ => ⟨rfl, rfl⟩⟩).1 1 9 (by decide)
      (fun m hm => ⟨2, hd_interface, by
        have hm0 : m = 0 := by omega
        subst hm0
        rfl, rfl⟩) rfl rfl,
   ((validate_first_failing_lookup linux_headers five_plane_caller generous_kernel
      simple_ops hd_device 0x4000 two_buffer_request caller_post_ext
      ⟨rfl, by decide, by decide, rfl, rfl, rfl, rfl, fun _ => ⟨rfl, rfl⟩⟩).2 1 { one_plane_config with n_planes := 5 }
      (by decide) (fun m hm => absurd hm (Nat.not_lt_zero m)) rfl
      (first_buffer_imports five_plane_caller generous_kernel rfl (by decide)) rfl).1
      (by decide),
   ((validate_first_failing_lookup linux_headers stale_overlay_caller generous_kernel
      simple_ops hd_device 0x4000 two_buffer_request caller_post_ext
      ⟨rfl, by decide, by decide, rfl, rfl, rfl, rfl, fun _ => ⟨rfl, rfl⟩⟩).2 1 { one_plane_config with overlay_engine := 8 }
      (by decide) (fun m hm => absurd hm (Nat.not_lt_zero m)) rfl
      (first_buffer_imports stale_overlay_caller generous_kernel rfl (by decide)) rfl).2
      (by decide) rfl⟩

/-! ## Failed imports and the driver's status -/

theorem import_planes_first_failure (kern : Kernel) (config : adf_buffer_config) (i j : Nat)
    (hbad : IS_ERR_OR_NULL (kern.dma_buf_get i j (config.fd j)) = true) :
    ∀ (k j0 : Nat) (buf : adf_buffer) (tr : List Event),
      j0 ≤ j → j < j0 + k →
      (∀ m, j0 ≤ m → m < j → IS_ERR_OR_NULL (kern.dma_buf_get i m (config.fd m)) = false) →
      (import_planes kern config i k j0 buf tr).1 =
        some (long_to_int (PTR_ERR (kern.dma_buf_get i j (config.fd j)))) := by
  intro k
  induction k with
  | zero => intro j0 buf tr h1 h2 _; omega
  | succ k ih =>
    intro j0 buf tr h1 h2 hgood
    by_cases hj : j0 = j
    · subst hj
      simp only [import_planes, store_same, hbad, if_true]
    · have hg := hgood j0 (le_refl _) (by omega)
      simp only [import_planes, store_same, hg, Bool.false_eq_true, if_false]
      exact ih (j0 + 1) _ _ (by omega) (by omega) (fun m h3 h4 => hgood m (by omega) h4)

theorem import_buffers_done (H : Headers) (um : UserMemory) (kern : Kernel)
    (dev : adf_device) (data : adf_validate_config_ext) :
    ∀ (k i0 : Nat) (bufs : Nat → adf_buffer) (tr : List Event),
      (∀ m, i0 ≤ m → m < i0 + k → buffer_imports H um kern dev data m) →
      (import_buffers H um kern dev data k i0 bufs tr).1 = Jump.done := by
  intro k
  induction k with
  | zero => intro i0 bufs tr _; rfl
  | succ k ih =>
    intro i0 bufs tr hpre
    obtain ⟨config, overlay, hc, hpl, hov, hgood⟩ := hpre i0 (le_refl _) (by omega)
    have hnone := import_planes_all_good kern config i0 config.n_planes 0
      (fresh_buffer overlay config) tr (fun m _ hm => hgood m (by omega))
    rcases hres : import_planes kern config i0 config.n_planes 0
      (fresh_buffer overlay config) tr with ⟨r, bufP, trP⟩
    rw [hres] at hnone
    simp only at hnone
    subst hnone
    rw [import_buffers_next H um kern dev data k i0 bufs tr config overlay bufP trP hc
      (by omega) hov hres]
    exact ih (i0 + 1) _ _ (fun m hm1 hm2 => hpre m (by omega) (by omega))

theorem validate_post_validations (H : Headers) (ops : adf_device_ops) (dev : adf_device)
    (data : adf_validate_config_ext) (post_ext : adf_post_ext) (size : Nat)
    (intfs bufs_allocated : Bool) (bufs : Nat → adf_buffer) (tr : List Event) :
    driver_validations (validate_post H ops dev data post_ext size intfs bufs_allocated bufs tr).2
      = driver_validations tr + 1 := by
  unfold validate_post
  simp only []
  split
  · rw [(err_import_validations H data bufs true intfs bufs_allocated _ _).2,
      driver_validations_append]
    rfl
  · rw [(err_import_validations H data bufs true intfs bufs_allocated _ _).2]
    split
    · rw [driver_validations_append, driver_validations_append]
      rfl
    · rw [driver_validations_append]
      rfl

theorem validate_bufs_done (H : Headers) (um : UserMemory) (kern : Kernel)
    (ops : adf_device_ops) (dev : adf_device) (data : adf_validate_config_ext)
    (post_ext : adf_post_ext) (size : Nat) (intfs : Bool) (tr : List Event)
    (halloc : data.n_bufs ≠ 0 → kern.kmalloc_ok Alloc.bufs = true)
    (hjump : ∀ bufs0 tr0,
      (import_buffers H um kern dev data data.n_bufs 0 bufs0 tr0).1 = Jump.done) :
    ∃ bufs, (validate_bufs H um kern ops dev data post_ext size intfs tr).1 =
        (ops.validate dev (post_cfg data post_ext size bufs) none).1 ∧
      driver_validations (validate_bufs H um kern ops dev data post_ext size intfs tr).2
        = driver_validations tr + 1 := by
  unfold validate_bufs
  simp only []
  rw [if_neg (by intro h; have := halloc h.1; simp_all)]
  have hj := hjump (fun _ => zero_buffer)
    (if data.n_bufs ≠ 0 then
      tr ++ [Event.kmalloc Alloc.bufs (decide (data.n_bufs ≠ 0) && kern.kmalloc_ok Alloc.bufs)]
     else tr)
  have hv := import_buffers_validations H um kern dev data data.n_bufs 0 (fun _ => zero_buffer)
    (if data.n_bufs ≠ 0 then
      tr ++ [Event.kmalloc Alloc.bufs (decide (data.n_bufs ≠ 0) && kern.kmalloc_ok Alloc.bufs)]
     else tr)
  rcases hres : import_buffers H um kern dev data data.n_bufs 0 (fun _ => zero_buffer)
    (if data.n_bufs ≠ 0 then
      tr ++ [Event.kmalloc Alloc.bufs (decide (data.n_bufs ≠ 0) && kern.kmalloc_ok Alloc.bufs)]
     else tr) with ⟨jump, bufs, trB⟩
  rw [hres] at hj hv
  simp only at hj hv
  subst hj
  simp only []
  refine ⟨bufs, (validate_post_spec H ops dev data post_ext size intfs _ bufs trB).1, ?_⟩
  rw [validate_post_validations, hv]
  split <;> simp [driver_validations_append, driver_validations]

theorem error_pointer_status (p : Nat) (hnull : p ≠ 0) (hlt : p < SIZE_T_MOD)
    (hbad : IS_ERR_OR_NULL p = true) :
    long_to_int (PTR_ERR p) = (p : Int) - (SIZE_T_MOD : Int) ∧ long_to_int (PTR_ERR p) ≠ 0 := by
  unfold IS_ERR_OR_NULL at hbad
  simp only [Bool.or_eq_true, decide_eq_true_eq, hnull, false_or] at hbad
  unfold SIZE_T_MOD MAX_ERRNO at hbad
  unfold SIZE_T_MOD at hlt
  unfold long_to_int PTR_ERR SIZE_T_MOD
  have hmod : p % 2 ^ 64 = p := Nat.mod_eq_of_lt hlt
  rw [hmod]
  norm_num at hbad hlt ⊢
  rw [if_neg (by omega)]
  constructor <;> omega

/-- A plane import that fails with an error pointer is not swallowed: the
status of `validate` is the errno the pointer carries, which is not zero, and
the driver's validate capability is not called. -/
theorem validate_error_pointer_import_fails (H : Headers) (um : UserMemory) (kern : Kernel)
    (ops : adf_device_ops) (dev : adf_device) (arg : Nat) (data : adf_validate_config_ext)
    (post_ext : adf_post_ext) (i j : Nat) (config : adf_buffer_config)
    (overlay : adf_overlay_engine)
    (hpre : header_marshals H um kern arg data post_ext)
    (hintfs : ∀ m, m < data.n_interfaces → interface_resolves um dev data m)
    (halloc : kern.kmalloc_ok Alloc.bufs = true)
    (hi : i < data.n_bufs)
    (hbefore : ∀ m, m < i → buffer_imports H um kern dev data m)
    (hc : um.buffer_config data.bufs i = some config)
    (hpl : config.n_planes ≤ H.ADF_MAX_PLANES)
    (hov : dev.overlay_engines config.overlay_engine = some overlay)
    (hj : j < config.n_planes)
    (hgood : ∀ m, m < j → IS_ERR_OR_NULL (kern.dma_buf_get i m (config.fd m)) = false)
    (hbad : IS_ERR_OR_NULL (kern.dma_buf_get i j (config.fd j)) = true)
    (hnull : kern.dma_buf_get i j (config.fd j) ≠ 0)
    (hlt : kern.dma_buf_get i j (config.fd j) < SIZE_T_MOD) :
    (validate H um kern ops dev arg).1 =
      (kern.dma_buf_get i j (config.fd j) : Int) - (SIZE_T_MOD : Int) ∧
    (validate H um kern ops dev arg).1 ≠ 0 ∧
    driver_validations (validate H um kern ops dev arg).2 = 0 := by
  have hacc := hpre.2.2.2.2.2.2.2
  rw [validate_of_header H um kern ops dev arg data post_ext hpre]
  have hres := resolve_interfaces_all um dev data data.n_interfaces 0
    (fun m _ hm => hintfs m (by omega))
  obtain ⟨intfs, tr', heq, hv⟩ := validate_intfs_resolved H um kern ops dev data post_ext
    ((H.sizeof_adf_post_ext + data.n_bufs * H.sizeof_adf_buffer_config_ext) % U32_MOD)
    [Event.kmalloc Alloc.post_ext true] hacc hres
  rw [heq]
  have hzero : driver_validations tr' = 0 := by rw [hv]; rfl
  have hjump : ∀ bufs0 tr0, (import_buffers H um kern dev data data.n_bufs 0 bufs0 tr0).1 =
      Jump.err_import (long_to_int (PTR_ERR (kern.dma_buf_get i j (config.fd j)))) :=
    fun bufs0 tr0 =>
      import_buffers_first_failure H um kern dev data i _
        (fun k' bufs tr => by
          have hp := import_planes_first_failure kern config i j hbad config.n_planes 0
            (fresh_buffer overlay config) tr (Nat.zero_le _) (by omega)
            (fun m _ hm => hgood m hm)
          rcases hres : import_planes kern config i config.n_planes 0
            (fresh_buffer overlay config) tr with ⟨r, bufP, trP⟩
          rw [hres] at hp
          simp only at hp
          subst hp
          rw [import_buffers_plane_failed H um kern dev data k' i bufs tr config overlay _
            bufP trP hc (by omega) hov hres])
        data.n_bufs 0 bufs0 tr0 (Nat.zero_le _) (by omega) (fun m _ hm => hbefore m hm)
  obtain ⟨h1, h2⟩ := validate_bufs_import_failed H um kern ops dev data post_ext _ intfs tr'
    _ (fun _ => halloc) hjump
  obtain ⟨e1, e2⟩ := error_pointer_status _ hnull hlt hbad
  rw [h1, h2, hzero]
  exact ⟨e1, e2, rfl⟩

/-- Whenever marshaling completes, `validate` calls the driver's validate
capability once, on the post built from the imported buffers, and returns its
status. -/
theorem validate_propagates_driver_status (H : Headers) (um : UserMemory) (kern : Kernel)
    (ops : adf_device_ops) (dev : adf_device) (arg : Nat) (data : adf_validate_config_ext)
    (post_ext : adf_post_ext)
    (hpre : header_marshals H um kern arg data post_ext)
    (hintfs : ∀ m, m < data.n_interfaces → interface_resolves um dev data m)
    (halloc : data.n_bufs ≠ 0 → kern.kmalloc_ok Alloc.bufs = true)
    (hbufs : ∀ m, m < data.n_bufs → buffer_imports H um kern dev data m) :
    ∃ bufs, (validate H um kern ops dev arg).1 =
        (ops.validate dev (post_cfg data post_ext
          ((H.sizeof_adf_post_ext + data.n_bufs * H.sizeof_adf_buffer_config_ext) % U32_MOD)
          bufs) none).1 ∧
      driver_validations (validate H um kern ops dev arg).2 = 1 := by
  have hacc := hpre.2.2.2.2.2.2.2
  rw [validate_of_header H um kern ops dev arg data post_ext hpre]
  have hres := resolve_interfaces_all um dev data data.n_interfaces 0
    (fun m _ hm => hintfs m (by omega))
  obtain ⟨intfs, tr', heq, hv⟩ := validate_intfs_resolved H um kern ops dev data post_ext
    ((H.sizeof_adf_post_ext + data.n_bufs * H.sizeof_adf_buffer_config_ext) % U32_MOD)
    [Event.kmalloc Alloc.post_ext true] hacc hres
  rw [heq]
  have hzero : driver_validations tr' = 0 := by rw [hv]; rfl
  obtain ⟨bufs, h1, h2⟩ := validate_bufs_done H um kern ops dev data post_ext
    ((H.sizeof_adf_post_ext + data.n_bufs * H.sizeof_adf_buffer_config_ext) % U32_MOD)
    intfs tr' halloc
    (fun bufs0 tr0 => import_buffers_done H um kern dev data data.n_bufs 0 bufs0 tr0
      (fun m _ hm => hbufs m (by omega)))
  exact ⟨bufs, h1, by rw [h2, hzero]⟩

/-- C19: evaluation of `validate` on a request for which `dma_buf_get` returns
NULL at the plane of the second buffer. `IS_ERR_OR_NULL` takes the failure
branch, `PTR_ERR(NULL)` is 0, and `validate` returns 0 without calling the
driver's validate capability; the handle of the first buffer is released. -/
theorem validate_swallows_null_import :
    IS_ERR_OR_NULL (null_import_kernel.dma_buf_get 1 0 (one_plane_config.fd 0)) = true ∧
    (validate linux_headers two_buffer_caller null_import_kernel simple_ops hd_device
      0x4000).1 = 0 ∧
    driver_validations (validate linux_headers two_buffer_caller null_import_kernel simple_ops
      hd_device 0x4000).2 = 0 ∧
    imported (validate linux_headers two_buffer_caller null_import_kernel simple_ops
      hd_device 0x4000).2 = [live_dma_buf] ∧
    released (validate linux_headers two_buffer_caller null_import_kernel simple_ops
      hd_device 0x4000).2 = [live_dma_buf] := by
  decide

theorem validate_error_pointer_import_fails_witness :
    (validate linux_headers two_buffer_caller bad_fd_kernel simple_ops hd_device 0x4000).1
      = -9 ∧
    driver_validations (validate linux_headers two_buffer_caller bad_fd_kernel simple_ops
      hd_device 0x4000).2 = 0 := by
  obtain ⟨h1, _, h3⟩ := validate_error_pointer_import_fails linux_headers two_buffer_caller
    bad_fd_kernel simple_ops hd_device 0x4000 two_buffer_request caller_post_ext 1 0
    one_plane_config rgb_overlay
    ⟨rfl, by decide, by decide, rfl, rfl, rfl, rfl, fun _ => ⟨rfl, rfl⟩⟩
    (fun m hm => absurd hm (Nat.not_lt_zero m)) rfl (by decide)
    (first_buffer_imports two_buffer_caller bad_fd_kernel rfl (by decide)) rfl (by decide) rfl
    (by decide) (fun m hm => absurd hm (Nat.not_lt_zero m)) (by decide) (by decide) (by decide)
  exact ⟨by rw [h1]; decide, h3⟩

theorem validate_propagates_driver_status_witness :
    ∃ bufs, (validate linux_headers null_flip_caller generous_kernel simple_ops hd_device
        0x4000).1 =
        (simple_ops.validate hd_device (post_cfg
          { n_interfaces := 0, interfaces := 0, n_bufs := 0, bufs := 0, post_ext := 0x6000 }
          caller_post_ext 4 bufs) none).1 ∧
      driver_validations (validate linux_headers null_flip_caller generous_kernel simple_ops
        hd_device 0x4000).2 = 1 :=
  validate_propagates_driver_status linux_headers null_flip_caller generous_kernel simple_ops
    hd_device 0x4000
    { n_interfaces := 0, interfaces := 0, n_bufs := 0, bufs := 0, post_ext := 0x6000 }
    caller_post_ext
    ⟨rfl, by decide, by decide, rfl, rfl, rfl, rfl, fun _ => ⟨rfl, rfl⟩⟩
    (fun m hm => absurd hm (Nat.not_lt_zero m)) (fun h => absurd rfl h)
    (fun m hm => absurd hm (Nat.not_lt_zero m))

end AdfCommon
